import Mathlib

/-! EndustryPi kiosk front-end: card-to-ticket correlation.

A shallow embedding of the browser modules `static/ticket-manager.js`,
`static/rfid-reader.js` and `static/weight-scale.js`.

Module-level variables become fields of explicit state records.  Every call
that leaves a module (a DOM write, `fetch`, `console.error`, `setTimeout`)
is appended to a log, so "what the code did" is a list that can be inspected.
An `async` function is split where it suspends: the part that runs
synchronously up to `await fetch(...)` (`_begin`), and the part that runs
once the exchange has settled (`_resume`); the outcome of the exchange is an
input of the resumption.  The later `await response.json()` of the same
function belongs to that exchange: what it settles to is a field of the
response, and the resumption runs through it.
-/

namespace EndustryPi

/-! ## JavaScript values -/

/-- A JavaScript number: `NaN`, the two infinities, or a finite value. -/
inductive JSNum
  | nan
  | posInf
  | negInf
  | fin (q : ℚ)
  deriving DecidableEq, Repr

namespace JSNum

/-- The global `isNaN(x)` on a number. -/
def isNaN : JSNum → Bool
  | nan => true
  | _ => false

/-- The comparison `x <= 0`. -/
def leZero : JSNum → Bool
  | nan => false
  | posInf => false
  | negInf => true
  | fin q => decide (q ≤ 0)

/-- The global `isFinite(x)` on a number. -/
def isFinite : JSNum → Bool
  | fin _ => true
  | _ => false

/-- Truthiness of a number: every number but zero and `NaN`. -/
def isTruthy : JSNum → Bool
  | nan => false
  | fin q => decide (q ≠ 0)
  | _ => true

end JSNum

/-- Truthiness of a value that is `null` (`none`) or a string. -/
def truthy : Option String → Bool
  | none => false
  | some s => s != ""

/-- Conversion to string of a value that is `null` or a string, as a template
literal does it. -/
def jsString : Option String → String
  | none => "null"
  | some s => s

/-- A thrown `Error` object; only its `message` is ever read. -/
structure JSError where
  message : String
  deriving DecidableEq, Repr

/-- The expression `error.message || fallback` of the catch blocks. -/
def JSError.messageOr (e : JSError) (fallback : String) : String :=
  if e.message = "" then fallback else e.message

/-! ## JSON -/

/-- A value written into a request body by `JSON.stringify`. -/
inductive JsonValue
  | null
  | number (q : ℚ)
  | string (s : String)
  deriving DecidableEq, Repr

/-- How `JSON.stringify` writes a number: non-finite numbers become `null`. -/
def stringifyNumber : JSNum → JsonValue
  | JSNum.fin q => JsonValue.number q
  | _ => JsonValue.null

/-- How `JSON.stringify` writes a value that is `null` or a string. -/
def stringifyString : Option String → JsonValue
  | none => JsonValue.null
  | some s => JsonValue.string s

/-- The value of a property read off a parsed response body.  `other` stands
for a number, boolean, array or object: it carries its truthiness and the
text `String(v)` gives for it. -/
inductive JSField
  | undefined
  | null
  | str (s : String)
  | other (isTruthy : Bool) (text : String)
  deriving DecidableEq, Repr

/-- The expression `v || fallback` used as a string. -/
def JSField.orElse (v : JSField) (fallback : String) : String :=
  match v with
  | JSField.undefined => fallback
  | JSField.null => fallback
  | JSField.str s => if s = "" then fallback else s
  | JSField.other isTruthy text => if isTruthy then text else fallback

/-- What `response.json()` resolves to: the JSON literal `null`, an object
with its properties, or any other value (number, string, boolean, array), on
which the properties read here are `undefined`. -/
inductive JSONBody
  | null
  | object (fields : List (String × JSField))
  | nonObject
  deriving DecidableEq, Repr

/-- The message of the `TypeError` a property read on `null` throws (the text
is the engine's; nothing below depends on it). -/
def nullReadMessage (property : String) : String :=
  "Cannot read properties of null (reading " ++ property ++ ")"

/-- The property read `body.name`: throws on `null`, is `undefined` when the
property is absent. -/
def JSONBody.get (body : JSONBody) (name : String) : Except JSError JSField :=
  match body with
  | JSONBody.null => Except.error ⟨nullReadMessage name⟩
  | JSONBody.object fields =>
      match fields.lookup name with
      | some v => Except.ok v
      | none => Except.ok JSField.undefined
  | JSONBody.nonObject => Except.ok JSField.undefined

/-! ## The ticket service as seen through `fetch` -/

/-- A request handed to `fetch`. -/
structure Request where
  method : String
  url : String
  headers : List (String × String)
  body : List (String × JsonValue)
  deriving DecidableEq, Repr

/-- A response: its status, its `content-type` header (`null` when absent)
and what `response.json()` settles to (a rejection or a parsed body). -/
structure Response where
  status : Nat
  contentType : Option String
  json : Except JSError JSONBody

/-- The `response.ok` flag: the status is in the range 200 to 299. -/
def Response.ok (r : Response) : Bool :=
  decide (200 ≤ r.status) && decide (r.status ≤ 299)

/-- The test `contentType && contentType.indexOf("application/json") !== -1`. -/
def indicatesJson (contentType : Option String) : Bool :=
  match contentType with
  | none => false
  | some ct => ct != "" && decide ("application/json".toList <:+: ct.toList)

/-- How an exchange started by `fetch` settles: the promise rejects (network
failure) or resolves with a response. -/
inductive FetchResult
  | rejected (error : JSError)
  | resolved (response : Response)

/-! ## Effects and the ticket-state view -/

/-- One call leaving the ticket manager. -/
inductive Effect
  | cardActionMessage (message : String) (isSuccess : Bool)
  | fetch (request : Request)
  | consoleError (message : String)
  | reloadAfter (delayMs : Nat)
  deriving DecidableEq, Repr

/-- An element of class `ticket-card`: its `data-ticket-id`. -/
structure TicketCard where
  ticketId : String
  deriving DecidableEq, Repr

/-- The double-quote character. -/
def dq : String := String.singleton (Char.ofNat 34)

/-- The selector of the open ticket card of a card id,
`.ticket-card[data-customer-rfid="<cardId>"]`. -/
def openTicketSelector (cardId : Option String) : String :=
  ".ticket-card[data-customer-rfid=" ++ dq ++ jsString cardId ++ dq ++ "]"

/-! ## The page and `document.querySelector` -/

/-- The characters that stand for themselves inside a double-quoted CSS
string: every character but the double quote (34), the backslash (92), the
line breaks (10, 12, 13) and the null character. -/
def cssPlainChar (c : Char) : Bool :=
  c.toNat != 34 && c.toNat != 92 && c.toNat != 10 && c.toNat != 12 && c.toNat != 13 &&
    c.toNat != 0

/-- A text all of whose characters stand for themselves in a CSS string. -/
def cssPlain (text : String) : Bool :=
  text.data.all cssPlainChar

/-- The characters of `.ticket-card[data-customer-rfid="`. -/
def selectorHead : List Char :=
  ".ticket-card[data-customer-rfid=".data ++ [Char.ofNat 34]

/-- The characters of `"]`. -/
def selectorTail : List Char :=
  [Char.ofNat 34] ++ "]".data

/-- The attribute value `v` of a selector that reads
`.ticket-card[data-customer-rfid="v"]` with `v` free of quotes, backslashes,
line breaks and null characters; nothing for any other selector. -/
def plainAttributeValue (selector : String) : Option String :=
  let chars := selector.data
  let inner :=
    (chars.drop selectorHead.length).take
      (chars.length - selectorHead.length - selectorTail.length)
  if chars == selectorHead ++ inner ++ selectorTail && inner.all cssPlainChar then
    some (String.mk inner)
  else none

/-- The document as the ticket manager reads it, the ticket-state view: the
elements of class `ticket-card` that carry a `data-customer-rfid`, in
document order, each with the value of that attribute; and what the browser
answers to a selector that is not a plain attribute selector of that
attribute (one built from a card id with a quote or a backslash in it): it
may throw a `SyntaxError`, or select an element, or select none.  As the
card reader reads it, it also says whether the page has the `cardStatus`
element. -/
structure Document where
  ticketCards : List (String × TicketCard)
  other : String → Except JSError (Option TicketCard)
  hasCardStatus : Bool

/-- `document.querySelector(selector)`: the first ticket card whose
`data-customer-rfid` is the value of a plain attribute selector; the
browser's answer, possibly a thrown error, on any other selector. -/
def Document.querySelector (doc : Document) (selector : String) :
    Except JSError (Option TicketCard) :=
  match plainAttributeValue selector with
  | some value =>
      Except.ok ((doc.ticketCards.find? (fun card => card.1 == value)).map Prod.snd)
  | none => doc.other selector

/-! ## TicketManager -/

namespace TicketManager

/-- The module state: the private `isProcessing` flag, and the log of the
calls the module has made. -/
structure State where
  isProcessing : Bool
  log : List Effect
  deriving DecidableEq, Repr

/-- The state when the script has just been loaded. -/
def State.init : State := { isProcessing := false, log := [] }

/-- An activation of `createTicket` or `closeTicket` suspended at its
`await fetch`, with what its resumption still reads. -/
inductive InFlight
  | createTicket
  | closeTicket (ticketId : String)
  deriving DecidableEq, Repr

/-- Append one effect to the log. -/
def emit (e : Effect) (s : State) : State :=
  { s with log := s.log ++ [e] }

/-- `updateCardActionMessage(message, isSuccess)`: the write to the
`cardActionMessage` element, recorded with its two arguments. -/
def updateCardActionMessage (message : String) (isSuccess : Bool) (s : State) : State :=
  emit (Effect.cardActionMessage message isSuccess) s

/-- The headers both ticket requests carry. -/
def jsonHeaders : List (String × String) :=
  [("Content-Type", "application/json"), ("Accept", "application/json")]

/-- The request `createTicket` sends. -/
def createRequest (rfidCard : Option String) (weight : JSNum) : Request :=
  { method := "POST"
    url := "/api/tickets"
    headers := jsonHeaders
    body := [("rfid_card", stringifyString rfidCard), ("gross_weight", stringifyNumber weight)] }

/-- The request `closeTicket` sends. -/
def closeRequest (ticketId : String) (tareWeight : JSNum) : Request :=
  { method := "POST"
    url := "/api/tickets/" ++ ticketId ++ "/close"
    headers := jsonHeaders
    body := [("tare_weight", stringifyNumber tareWeight)] }

/-- The `if (!response.ok)` block shared by `createTicket` and `closeTicket`:
the error it throws. -/
def failureError (fallback : String) (response : Response) : JSError :=
  if indicatesJson response.contentType then
    match response.json with
    | Except.error e => e
    | Except.ok error =>
        match error.get "error" with
        | Except.error e => e
        | Except.ok v => ⟨v.orElse fallback⟩
  else
    ⟨"Server error: " ++ toString response.status⟩

/-- The `try` block of `createTicket` after `await fetch`: the state where it
ends and the error it throws, if any. -/
def createTicket_try (result : FetchResult) (s : State) : State × Option JSError :=
  match result with
  | FetchResult.rejected e => (s, some e)
  | FetchResult.resolved response =>
      if !response.ok then
        (s, some (failureError "Error creating ticket" response))
      else
        match response.json with
        | Except.error e => (s, some e)
        | Except.ok data =>
            match data.get "id" with
            | Except.error e => (s, some e)
            | Except.ok id =>
                let s₁ := updateCardActionMessage
                  ("Ticket #" ++ id.orElse "new" ++ " created successfully!") true s
                (emit (Effect.reloadAfter 1000) s₁, none)

/-- The `try` block of `closeTicket` after `await fetch`. -/
def closeTicket_try (ticketId : String) (result : FetchResult) (s : State) :
    State × Option JSError :=
  match result with
  | FetchResult.rejected e => (s, some e)
  | FetchResult.resolved response =>
      if !response.ok then
        (s, some (failureError "Error closing ticket" response))
      else
        match response.json with
        | Except.error e => (s, some e)
        | Except.ok _ =>
            let s₁ := updateCardActionMessage
              ("Ticket #" ++ ticketId ++ " closed successfully!") true s
            (emit (Effect.reloadAfter 1000) s₁, none)

/-- The `catch` and `finally` blocks of `createTicket` and `closeTicket`. -/
def catchFinally (fallback : String) (r : State × Option JSError) : State :=
  let s₁ :=
    match r.2 with
    | none => r.1
    | some error =>
        updateCardActionMessage (error.messageOr fallback) false
          (emit (Effect.consoleError error.message) r.1)
  { s₁ with isProcessing := false }

/-- The function `createTicket(rfidCard, weight)` up to its `await fetch`:
dropped when `isProcessing` is set, otherwise the flag is taken, the working
message shown and the request sent. -/
def createTicket_begin (rfidCard : Option String) (weight : JSNum) (s : State) :
    State × Option InFlight :=
  if s.isProcessing then (s, none)
  else
    let s₁ := { s with isProcessing := true }
    let s₂ := updateCardActionMessage "Creating new ticket..." true s₁
    (emit (Effect.fetch (createRequest rfidCard weight)) s₂, some InFlight.createTicket)

/-- The function `createTicket` from the point where its exchange has settled. -/
def createTicket_resume (result : FetchResult) (s : State) : State :=
  catchFinally "Error creating ticket" (createTicket_try result s)

/-- The function `closeTicket(ticketId, tareWeight)` up to its `await fetch`. -/
def closeTicket_begin (ticketId : String) (tareWeight : JSNum) (s : State) :
    State × Option InFlight :=
  if s.isProcessing then (s, none)
  else
    let s₁ := { s with isProcessing := true }
    let s₂ := updateCardActionMessage ("Closing ticket #" ++ ticketId ++ "...") true s₁
    (emit (Effect.fetch (closeRequest ticketId tareWeight)) s₂,
      some (InFlight.closeTicket ticketId))

/-- The function `closeTicket` from the point where its exchange has settled. -/
def closeTicket_resume (ticketId : String) (result : FetchResult) (s : State) : State :=
  catchFinally "Error closing ticket" (closeTicket_try ticketId result s)

/-- The `catch` block of `handleRfidScan`. -/
def handleRfidScan_catch (error : JSError) (s : State) : State :=
  updateCardActionMessage (error.messageOr "Error processing ticket") false
    (emit (Effect.consoleError error.message) s)

/-- The function `handleRfidScan(cardId, weight)` up to the `await fetch` of
the operation it calls; nothing of it is left to run once that operation has
completed. -/
def handleRfidScan_begin (doc : Document) (cardId : Option String) (weight : JSNum)
    (s : State) : State × Option InFlight :=
  let s₁ := updateCardActionMessage "Processing card..." true s
  if !truthy cardId then
    (handleRfidScan_catch ⟨"Invalid card ID"⟩ s₁, none)
  else if weight.isNaN || weight.leZero then
    (handleRfidScan_catch ⟨"Invalid weight reading. Please check the scale."⟩ s₁, none)
  else
    match doc.querySelector (openTicketSelector cardId) with
    | Except.error e => (handleRfidScan_catch e s₁, none)
    | Except.ok (some openTicket) => closeTicket_begin openTicket.ticketId weight s₁
    | Except.ok none => createTicket_begin cardId weight s₁

/-- Resume a suspended activation with the outcome of its exchange. -/
def InFlight.resume : InFlight → FetchResult → State → State
  | InFlight.createTicket, result, s => createTicket_resume result s
  | InFlight.closeTicket ticketId, result, s => closeTicket_resume ticketId result s

/-- Run a begun call to completion: resume it if it suspended. -/
def complete (r : State × Option InFlight) (result : FetchResult) : State :=
  match r.2 with
  | some op => op.resume result r.1
  | none => r.1

/-- The function `createTicket`, from call to completion, for a given outcome
of its exchange. -/
def createTicket (rfidCard : Option String) (weight : JSNum) (result : FetchResult)
    (s : State) : State :=
  complete (createTicket_begin rfidCard weight s) result

/-- The function `closeTicket`, from call to completion. -/
def closeTicket (ticketId : String) (tareWeight : JSNum) (result : FetchResult)
    (s : State) : State :=
  complete (closeTicket_begin ticketId tareWeight s) result

/-- The function `handleRfidScan`, from call to completion. -/
def handleRfidScan (doc : Document) (cardId : Option String) (weight : JSNum)
    (result : FetchResult) (s : State) : State :=
  complete (handleRfidScan_begin doc cardId weight s) result

/-- The requests in a log, in order. -/
def requests : List Effect → List Request
  | [] => []
  | Effect.fetch r :: rest => r :: requests rest
  | _ :: rest => requests rest

/-- The messages written to the card action message, in order. -/
def messages : List Effect → List (String × Bool)
  | [] => []
  | Effect.cardActionMessage m ok :: rest => (m, ok) :: messages rest
  | _ :: rest => messages rest

/-- The number of refreshes (page reloads) scheduled in a log. -/
def reloads : List Effect → Nat
  | [] => 0
  | Effect.reloadAfter _ :: rest => reloads rest + 1
  | _ :: rest => reloads rest

/-- A call to one of the three entry points behind the in-flight guard. -/
inductive Call
  | createTicket (rfidCard : Option String) (weight : JSNum)
  | closeTicket (ticketId : String) (tareWeight : JSNum)
  | handleRfidScan (cardId : Option String) (weight : JSNum)
  deriving DecidableEq, Repr

/-- The synchronous part of a call. -/
def Call.begin (doc : Document) : Call → State → State × Option InFlight
  | Call.createTicket rfidCard weight, s => createTicket_begin rfidCard weight s
  | Call.closeTicket ticketId tareWeight, s => closeTicket_begin ticketId tareWeight s
  | Call.handleRfidScan cardId weight, s => handleRfidScan_begin doc cardId weight s

/-- The ticket manager between events: the module state and the activations
suspended at their `await fetch`, whose requests are outstanding. -/
structure Session where
  state : State
  outstanding : List InFlight
  deriving DecidableEq, Repr

/-- The session when the script has just been loaded. -/
def Session.init : Session := { state := State.init, outstanding := [] }

/-- What the event loop runs next: a call of an entry point, or the
settlement of the exchange of the suspended activation at an index. -/
inductive Step
  | call (c : Call)
  | settle (index : Nat) (result : FetchResult)

/-- One turn of the event loop. -/
def Session.step (doc : Document) (σ : Session) : Step → Session
  | Step.call c =>
      let r := c.begin doc σ.state
      { state := r.1, outstanding := σ.outstanding ++ r.2.toList }
  | Step.settle index result =>
      match σ.outstanding[index]? with
      | none => σ
      | some op =>
          { state := op.resume result σ.state, outstanding := σ.outstanding.eraseIdx index }

/-- The event loop over a list of turns. -/
def Session.run (doc : Document) (σ : Session) (steps : List Step) : Session :=
  steps.foldl (Session.step doc) σ

/-- The guard invariant: the flag is set exactly when one activation is
suspended, and never more than one is. -/
def Session.Guarded (σ : Session) : Prop :=
  σ.outstanding.length = if σ.state.isProcessing then 1 else 0

end TicketManager

/-! ## WeightScale -/

namespace WeightScale

/-- One call leaving the scale module. -/
inductive Effect
  | fetch (url : String)
  | updateConnectionStatus (isConnected : Bool)
  | displayWeight (weight : JSNum)
  | showErrorInDisplay
  | consoleError (message : String)
  | clearInterval (timer : Nat)
  | setInterval (delayMs : Nat)
  deriving DecidableEq, Repr

/-- The private variables of the module, and the log of its calls. -/
structure State where
  toggleId : String
  statusTextId : String
  weightDisplayId : String
  containerDisplayId : String
  lastWeight : JSNum
  monitorInterval : Option Nat
  connectionAttempts : Nat
  log : List Effect
  deriving DecidableEq, Repr

/-- The state when the script has just been loaded. -/
def State.init : State :=
  { toggleId := "", statusTextId := "", weightDisplayId := "", containerDisplayId := "",
    lastWeight := JSNum.fin 0, monitorInterval := none, connectionAttempts := 0, log := [] }

/-- `getLastWeight()`. -/
def getLastWeight (s : State) : JSNum := s.lastWeight

/-- The zero-argument readers among the properties of the object the module
returns (`init` and `getLastWeight`, weight-scale.js 127-130): a name is
looked up in that object, and `init`, which takes the element ids, is not a
reader.  Any other name is `undefined`. -/
def reader (name : String) : Option (State → JSNum) :=
  if name = "getLastWeight" then some getLastWeight else none

/-- The page as the scale module reads it: whether `document.getElementById`
finds an element for an id. -/
structure Elements where
  getElementById : String → Bool

/-- Append one effect to the log. -/
def emit (e : Effect) (s : State) : State :=
  { s with log := s.log ++ [e] }

/-- `updateConnectionStatus(isConnected)`: the write to the toggle and the
status text, recorded with its argument. -/
def updateConnectionStatus (isConnected : Bool) (s : State) : State :=
  emit (Effect.updateConnectionStatus isConnected) s

/-- `showErrorInDisplay()`. -/
def showErrorInDisplay (s : State) : State :=
  emit Effect.showErrorInDisplay s

/-- `updateWeightDisplay(weight)`: it returns at once when the page has no
element with the id `weightDisplayId`; otherwise it stores the weight in
`lastWeight` and writes it to the element. -/
def updateWeightDisplay (page : Elements) (weight : JSNum) (s : State) : State :=
  if !page.getElementById s.weightDisplayId then s
  else emit (Effect.displayWeight weight) { s with lastWeight := weight }

/-- `startMonitoring()`: a running timer is cleared, and `readWeight` is put
on a one-second timer, whose handle `timer` is kept. -/
def startMonitoring (timer : Nat) (s : State) : State :=
  let s₁ :=
    match s.monitorInterval with
    | some old => if old = 0 then s else emit (Effect.clearInterval old) s
    | none => s
  { emit (Effect.setInterval 1000) s₁ with monitorInterval := some timer }

/-- `init(weightToggleId, weightStatusId, currentWeightId, containerDisplayId)`.
Its fourth assignment, `containerDisplayId = containerDisplayId`, is of the
parameter to itself: the module variable of that name keeps its value. -/
def init (weightToggleId weightStatusId currentWeightId _containerDisplayId : String)
    (timer : Nat) (s : State) : State :=
  let s₁ :=
    { s with toggleId := weightToggleId, statusTextId := weightStatusId,
             weightDisplayId := currentWeightId }
  startMonitoring timer (updateConnectionStatus false s₁)

/-- How the exchange of one read settles, as far as `readWeight` reads it:
`fetch` rejects, or it resolves with a status and with what reading
`(await response.json()).weight` gives: an error when `json()` rejects or the
body is `null`, otherwise the number, or nothing when the body has no
`weight`. -/
inductive ReadResult
  | rejected (error : JSError)
  | response (status : Nat) (weight : Except JSError (Option JSNum))

/-- The `response.ok` flag of a status. -/
def statusOk (status : Nat) : Bool :=
  decide (200 ≤ status) && decide (status ≤ 299)

/-- The `catch` block of `readWeight`. -/
def readWeight_catch (error : JSError) (s : State) : State :=
  let s₁ := emit (Effect.consoleError error.message) s
  let s₂ := { s₁ with connectionAttempts := s₁.connectionAttempts + 1 }
  if 3 ≤ s₂.connectionAttempts then showErrorInDisplay (updateConnectionStatus false s₂)
  else s₂

/-- The function `readWeight()` up to its `await fetch`. -/
def readWeight_begin (s : State) : State :=
  emit (Effect.fetch "/api/weight/read") s

/-- The function `readWeight()` from the point where its exchange has
settled. -/
def readWeight_resume (page : Elements) (result : ReadResult) (s : State) : State :=
  match result with
  | ReadResult.rejected e => readWeight_catch e s
  | ReadResult.response status weight =>
      if !statusOk status then
        readWeight_catch ⟨"HTTP error! status: " ++ toString status⟩ s
      else
        let s₁ := { updateConnectionStatus true s with connectionAttempts := 0 }
        match weight with
        | Except.error e => readWeight_catch e s₁
        | Except.ok none => s₁
        | Except.ok (some w) => if w.isTruthy then updateWeightDisplay page w s₁ else s₁

/-- One tick of the monitor with its exchange settled. -/
def readWeight (page : Elements) (result : ReadResult) (s : State) : State :=
  readWeight_resume page result (readWeight_begin s)

/-- The monitor fed a sequence of read outcomes. -/
def readAll (page : Elements) (s : State) (results : List ReadResult) : State :=
  results.foldl (fun s result => readWeight page result s) s

/-- A successful read: a success status whose body is read. -/
def ReadResult.isSuccess : ReadResult → Bool
  | ReadResult.response status (Except.ok _) => statusOk status
  | _ => false

/-- A failed read in the narrow sense: a network error or a non-success
status. -/
def ReadResult.isFailedRead : ReadResult → Bool
  | ReadResult.rejected _ => true
  | ReadResult.response status _ => !statusOk status

/-- The number of reads at the end of a sequence that are not successful:
the length of the current run of failures. -/
def trailingFailures (results : List ReadResult) : Nat :=
  (results.reverse.takeWhile (fun r => !r.isSuccess)).length

/-- What a step added to the log. -/
def reported (before after : State) : List Effect :=
  after.log.drop before.log.length

end WeightScale

/-! ## RFIDReader -/

namespace RFIDReader

/-- One call leaving the reader module, or entering `processCardScan`. -/
inductive Effect
  | fetch (url : String)
  | processCardScan (cardId : Option String)
  | handleRfidScan (cardId : Option String) (weight : JSNum)
  | updateCardDisplay (cardId : Option String) (errorMessage : Option String)
  | consoleError (message : String)
  | highlightOpenTicket (ticketId : String)
  | switchToTab (tabId : String)
  deriving DecidableEq, Repr

/-- The private variables of the module, and the log of its calls. -/
structure State where
  lastCardId : Option String
  simulatedCardId : Option String
  isPolling : Bool
  pollInterval : Option Nat
  log : List Effect
  deriving DecidableEq, Repr

/-- The state when the script has just been loaded. -/
def State.init : State :=
  { lastCardId := none, simulatedCardId := none, isPolling := false, pollInterval := none,
    log := [] }

/-- The three modules together, with the ticket operations suspended at
their `await fetch`. -/
structure World where
  rfid : State
  scale : WeightScale.State
  tickets : TicketManager.State
  suspended : List TicketManager.InFlight
  deriving DecidableEq, Repr

/-- The page when the scripts have just been loaded. -/
def World.init : World :=
  { rfid := State.init, scale := WeightScale.State.init, tickets := TicketManager.State.init,
    suspended := [] }

/-- Append one effect to the reader log. -/
def World.emit (e : Effect) (w : World) : World :=
  { w with rfid := { w.rfid with log := w.rfid.log ++ [e] } }

/-- The expression `a || b` on values that are `null` or a string. -/
def orElse (a b : Option String) : Option String :=
  if truthy a then a else b

/-- `updateCardDisplay(cardId, errorMessage)`: the call is recorded with its
arguments.  When the page has the `cardStatus` element, no error message is
given and the card id is not empty, the status line looks the open ticket of
the card up (`TicketManager.getOpenTicketForCard`), and an error that lookup
throws leaves the function. -/
def updateCardDisplay (doc : Document) (cardId errorMessage : Option String) (w : World) :
    World × Option JSError :=
  let w₁ := w.emit (Effect.updateCardDisplay cardId errorMessage)
  if doc.hasCardStatus && !truthy errorMessage && truthy cardId then
    match doc.querySelector (openTicketSelector cardId) with
    | Except.error e => (w₁, some e)
    | Except.ok _ => (w₁, none)
  else (w₁, none)

/-- `processCardScan(cardId)`: the world where it ends and the error it
throws, if any.  Its entry is logged.  It reads the scale through
`WeightScale.getCurrentWeight()` and hands card and weight to
`TicketManager.handleRfidScan`, whose synchronous part runs at once. -/
def processCardScan (doc : Document) (cardId : Option String) (w : World) :
    World × Option JSError :=
  let w₀ := w.emit (Effect.processCardScan cardId)
  if !truthy cardId then (w₀, none)
  else
    match WeightScale.reader "getCurrentWeight" with
    | none => (w₀, some ⟨"WeightScale.getCurrentWeight is not a function"⟩)
    | some getCurrentWeight =>
        let weight := getCurrentWeight w₀.scale
        let w₁ := w₀.emit (Effect.handleRfidScan cardId weight)
        let r := TicketManager.handleRfidScan_begin doc cardId weight w₁.tickets
        ({ w₁ with tickets := r.1, suspended := w₁.suspended ++ r.2.toList }, none)

/-- `simulateCardScan(cardId)`: an error thrown by `processCardScan`, by
`updateCardDisplay` or by the lookup of `getOpenTicketForCard` is not caught
here and ends the function. -/
def simulateCardScan (doc : Document) (cardId : Option String) (w : World) :
    World × Option JSError :=
  if !truthy cardId then (w, none)
  else
    let w₁ := { w with rfid := { w.rfid with simulatedCardId := cardId } }
    let r := processCardScan doc cardId w₁
    match r.2 with
    | some e => (r.1, some e)
    | none =>
        let d := updateCardDisplay doc cardId none r.1
        match d.2 with
        | some e => (d.1, some e)
        | none =>
            match doc.querySelector (openTicketSelector cardId) with
            | Except.error e => (d.1, some e)
            | Except.ok (some openTicket) =>
                ((d.1.emit (Effect.highlightOpenTicket openTicket.ticketId)).emit
                  (Effect.switchToTab "ticketsTab"), none)
            | Except.ok none => (d.1, none)

/-- How the exchange of one poll settles, as far as `pollForCard` reads it:
either `fetch` or `response.json()` rejects or the body is `null` (the `try`
block throws before the comparison), or the body is read and its `card_id`
is `null`/absent or a string. -/
inductive PollResult
  | failed (error : JSError)
  | data (card_id : Option String)
  deriving DecidableEq, Repr

/-- The `catch` block of `pollForCard`; its `updateCardDisplay` is given an
error message, so it looks nothing up. -/
def pollForCard_catch (error : JSError) (w : World) : World :=
  (w.emit (Effect.consoleError error.message)).emit
    (Effect.updateCardDisplay none (some (error.messageOr "Error polling for card")))

/-- The function `pollForCard()` up to its `await fetch`. -/
def pollForCard_begin (w : World) : World :=
  w.emit (Effect.fetch "/api/rfid/current")

/-- The function `pollForCard()` from the point where its exchange has
settled. -/
def pollForCard_resume (doc : Document) (result : PollResult) (w : World) : World :=
  match result with
  | PollResult.failed e => pollForCard_catch e w
  | PollResult.data card_id =>
      let r :=
        if truthy card_id && card_id != w.rfid.lastCardId then
          processCardScan doc card_id { w with rfid := { w.rfid with lastCardId := card_id } }
        else (w, none)
      match r.2 with
      | some e => pollForCard_catch e r.1
      | none =>
          let d := updateCardDisplay doc (orElse card_id r.1.rfid.simulatedCardId) none r.1
          match d.2 with
          | some e => pollForCard_catch e d.1
          | none => d.1

/-- One tick of the polling loop with its exchange settled. -/
def pollForCard (doc : Document) (result : PollResult) (w : World) : World :=
  pollForCard_resume doc result (pollForCard_begin w)

/-- The polling loop fed a sequence of successful responses, given by the
`card_id` each reports. -/
def pollAll (doc : Document) (w : World) (responses : List (Option String)) : World :=
  responses.foldl (fun w card_id => pollForCard doc (PollResult.data card_id) w) w

/-- The card events in a log: the card ids of the calls to `processCardScan`. -/
def cardEvents : List Effect → List (Option String)
  | [] => []
  | Effect.processCardScan cardId :: rest => cardId :: cardEvents rest
  | _ :: rest => cardEvents rest

/-- The calls to `TicketManager.handleRfidScan` in a log. -/
def forwarded : List Effect → List (Option String × JSNum)
  | [] => []
  | Effect.handleRfidScan cardId weight :: rest => (cardId, weight) :: forwarded rest
  | _ :: rest => forwarded rest

/-- The edge-trigger invariant: a non-empty card id differs from `lastCardId`
exactly when it differs from the card id of the last card event. -/
def EdgeTriggered (w : World) : Prop :=
  ∀ r : Option String, truthy r = true →
    ((r != w.rfid.lastCardId) = true ↔ (cardEvents w.rfid.log).getLast? ≠ some r)

/-- `getLastCardId()`: `lastCardId || simulatedCardId`. -/
def getLastCardId (s : State) : Option String :=
  orElse s.lastCardId s.simulatedCardId

/-- `updateCardStatus()`: the display is given `simulatedCardId || lastCardId`;
an error `updateCardDisplay` throws is not caught here. -/
def updateCardStatus (doc : Document) (w : World) : World × Option JSError :=
  updateCardDisplay doc (orElse w.rfid.simulatedCardId w.rfid.lastCardId) none w

/-- `startPolling()`: nothing when polling already; otherwise the flag is set,
`pollForCard` is put on the two-second timer, whose handle `timer` is kept,
and a first poll is started at once. -/
def startPolling (timer : Nat) (w : World) : World :=
  if w.rfid.isPolling then w
  else
    pollForCard_begin
      { w with rfid := { w.rfid with isPolling := true, pollInterval := some timer } }

/-- `stopPolling()`: the flag is cleared, and a timer that is set is cleared
and forgotten. -/
def stopPolling (w : World) : World :=
  let cleared :=
    match w.rfid.pollInterval with
    | some timer => if timer = 0 then some timer else none
    | none => none
  { w with rfid := { w.rfid with isPolling := false, pollInterval := cleared } }

/-- What reaches the reader: a poll settling, or a card id injected through
`simulateCardScan` (manual entry or quick select). -/
inductive CardInput
  | polled (result : PollResult)
  | injected (cardId : Option String)
  deriving DecidableEq, Repr

/-- The reader handling one input; an error `simulateCardScan` throws ends
that handler only. -/
def World.feed (doc : Document) (w : World) : CardInput → World
  | CardInput.polled result => pollForCard doc result w
  | CardInput.injected cardId => (simulateCardScan doc cardId w).1

/-- The reader handling a sequence of inputs. -/
def World.feedAll (doc : Document) (w : World) (inputs : List CardInput) : World :=
  inputs.foldl (World.feed doc) w

/-- The non-empty card id a poll reports, if the input is one. -/
def CardInput.polledCard : CardInput → Option String
  | CardInput.polled (PollResult.data card_id) => if truthy card_id then card_id else none
  | _ => none

/-- The non-empty card id an injection carries, if the input is one. -/
def CardInput.injectedCard : CardInput → Option String
  | CardInput.injected cardId => if truthy cardId then cardId else none
  | _ => none

/-- The card id of the latest poll that reported a card, `null` when none
has. -/
def lastPolledCard (inputs : List CardInput) : Option String :=
  inputs.reverse.findSome? CardInput.polledCard

/-- The card id of the latest injection, `null` when there was none. -/
def lastInjectedCard (inputs : List CardInput) : Option String :=
  inputs.reverse.findSome? CardInput.injectedCard

end RFIDReader

/-! ## TicketManager: the one-shot operations -/

namespace TicketManager

/-- One call leaving `deleteTicket` or `printReceipt`.  `setLoadingState` and
`showAlert` are the calls into `UIControls`; an alert carries its message,
its type and its duration (3000 when the caller gives none). -/
inductive UICall
  | setLoadingState (elementId : String) (isLoading : Bool)
  | fetch (request : Request)
  | consoleError (message : String)
  | showAlert (message : String) (type : String) (duration : Nat)
  deriving DecidableEq, Repr

/-- The request `deleteTicket` sends. -/
def deleteRequest (ticketId : String) : Request :=
  { method := "DELETE"
    url := "/api/tickets/" ++ ticketId
    headers := [("Accept", "application/json")]
    body := [] }

/-- The request `printReceipt` sends. -/
def printRequest (ticketId : String) : Request :=
  { method := "POST"
    url := "/api/tickets/" ++ ticketId ++ "/print"
    headers := jsonHeaders
    body := [] }

/-- The `try` block of `deleteTicket` after `await fetch`: the value it
returns, or the error it throws.  The body is parsed whatever the status. -/
def deleteTicket_try (result : FetchResult) : Except JSError Bool :=
  match result with
  | FetchResult.rejected e => Except.error e
  | FetchResult.resolved response =>
      match response.json with
      | Except.error e => Except.error e
      | Except.ok data =>
          if !response.ok then
            match data.get "error" with
            | Except.error e => Except.error e
            | Except.ok v =>
                Except.error ⟨v.orElse ("Server error: " ++ toString response.status)⟩
          else Except.ok true

/-- The function `deleteTicket(ticketId)`, from call to completion, for a
given outcome of its exchange: the value it returns and the calls it makes. -/
def deleteTicket (ticketId : String) (result : FetchResult) : Bool × List UICall :=
  let before :=
    [UICall.setLoadingState "confirmDeleteBtn" true, UICall.fetch (deleteRequest ticketId)]
  match deleteTicket_try result with
  | Except.ok value => (value, before ++ [UICall.setLoadingState "confirmDeleteBtn" false])
  | Except.error error =>
      (false, before ++
        [UICall.consoleError error.message,
         UICall.showAlert (error.messageOr "Error deleting ticket") "danger" 3000,
         UICall.setLoadingState "confirmDeleteBtn" false])

/-- The `try` block of `printReceipt` after `await fetch`: the success alert
it shows before returning `true`, or the error it throws. -/
def printReceipt_try (ticketId : String) (result : FetchResult) : Except JSError UICall :=
  match result with
  | FetchResult.rejected e => Except.error e
  | FetchResult.resolved response =>
      match response.json with
      | Except.error e => Except.error e
      | Except.ok data =>
          if !response.ok then
            match data.get "error" with
            | Except.error e => Except.error e
            | Except.ok v =>
                Except.error ⟨v.orElse ("Error printing ticket: " ++ toString response.status)⟩
          else
            match data.get "message" with
            | Except.error e => Except.error e
            | Except.ok m =>
                Except.ok (UICall.showAlert
                  (m.orElse ("Ticket #" ++ ticketId ++ " printed successfully")) "success" 3000)

/-- The function `printReceipt(ticketId)`, from call to completion. -/
def printReceipt (ticketId : String) (result : FetchResult) : Bool × List UICall :=
  let before :=
    [UICall.showAlert "Sending print job..." "info" 1000, UICall.fetch (printRequest ticketId)]
  match printReceipt_try ticketId result with
  | Except.ok alert => (true, before ++ [alert])
  | Except.error error =>
      (false, before ++
        [UICall.consoleError error.message,
         UICall.showAlert (error.messageOr "Error printing ticket") "danger" 3000])

/-- The alerts among the calls, in order. -/
def alerts : List UICall → List (String × String)
  | [] => []
  | UICall.showAlert message type _ :: rest => (message, type) :: alerts rest
  | _ :: rest => alerts rest

end TicketManager

/-! ## Outcomes on which an operation runs to its end -/

/-- The body a settled exchange hands to the success branch: the response is
`ok` and `response.json()` resolves. -/
def FetchResult.successBody : FetchResult → Option JSONBody
  | FetchResult.rejected _ => none
  | FetchResult.resolved response =>
      if response.ok then
        match response.json with
        | Except.ok body => some body
        | Except.error _ => none
      else none

/-- The outcomes on which the `try` block of `createTicket` throws nothing: a
success response whose body is read and is not `null`. -/
def FetchResult.createCompletes (result : FetchResult) : Bool :=
  match result.successBody with
  | some body => body != JSONBody.null
  | none => false

/-- The outcomes on which the `try` block of `closeTicket` throws nothing: a
success response whose body is read. -/
def FetchResult.closeCompletes (result : FetchResult) : Bool :=
  result.successBody.isSome

/-! ## Concrete pages and responses -/

/-- The error `querySelector` throws on a selector it cannot parse. -/
def invalidSelector : JSError := { message := "SyntaxError: not a valid selector" }

/-- The backslash character. -/
def backslash : String := String.singleton (Char.ofNat 92)

/-- The card id `A"1`, with a double quote in it. -/
def quotedCard : String := "A" ++ dq ++ "1"

/-- The card id `A\31`, in which a CSS escape spells the `1` of A1. -/
def escapedCard : String := "A" ++ backslash ++ "31"

/-- A page with no open ticket card; a selector that is not plain is
answered with a `SyntaxError`. -/
def emptyPage : Document :=
  { ticketCards := [], other := fun _ => Except.error invalidSelector, hasCardStatus := true }

/-- A page whose only open ticket card is ticket 7 of card A1, as a browser
answers on it: the selector built from `A\31` reads, once its escape is
decoded, as the one of A1 and selects ticket 7; the one built from `A"1`,
like any other malformed one, is answered with a `SyntaxError`. -/
def pageA1 : Document :=
  { ticketCards := [("A1", { ticketId := "7" })]
    other := fun selector =>
      if selector.data == selectorHead ++ escapedCard.data ++ selectorTail then
        Except.ok (some { ticketId := "7" })
      else Except.error invalidSelector
    hasCardStatus := true }

/-- A success response carrying the id of the created ticket. -/
def created12 : Response :=
  { status := 201, contentType := some "application/json",
    json := Except.ok (JSONBody.object [("id", JSField.other true "12")]) }

/-- The response HTTP 500 with the JSON body carrying the error "db down". -/
def dbDown : Response :=
  { status := 500, contentType := some "application/json",
    json := Except.ok (JSONBody.object [("error", JSField.str "db down")]) }

/-- The response HTTP 500 with an empty JSON object as body. -/
def emptyObject500 : Response :=
  { status := 500, contentType := some "application/json",
    json := Except.ok (JSONBody.object []) }

/-- The response HTTP 500 whose JSON body is the value `null`. -/
def nullBody500 : Response :=
  { status := 500, contentType := some "application/json", json := Except.ok JSONBody.null }

/-- The response HTTP 502 with an HTML body. -/
def htmlBadGateway : Response :=
  { status := 502, contentType := some "text/html",
    json := Except.error { message := "Unexpected token < in JSON at position 0" } }

/-- The response HTTP 200 with an empty body, which `response.json()` cannot
parse. -/
def okEmptyBody : Response :=
  { status := 200, contentType := none,
    json := Except.error { message := "Unexpected end of JSON input" } }

/-- The exchange that ends in `created12`. -/
def okCreated : FetchResult := FetchResult.resolved created12

/-- The exchange that ends in `okEmptyBody`. -/
def okUnread : FetchResult := FetchResult.resolved okEmptyBody

/-- A page just loaded on which the scale has read 42.5. -/
def worldAt42 : RFIDReader.World :=
  { RFIDReader.World.init with
      scale := { WeightScale.State.init with lastWeight := JSNum.fin (mkRat 85 2) } }

/-- A page that has the four elements the scale module asks for. -/
def scalePage : WeightScale.Elements :=
  { getElementById := fun id =>
      ["weightToggle", "weightStatus", "currentWeight", "digitalDisplay"].contains id }

/-- The scale module once the page has called `init` with the ids of those
elements. -/
def scaleStarted : WeightScale.State :=
  WeightScale.init "weightToggle" "weightStatus" "currentWeight" "digitalDisplay" 1
    WeightScale.State.init

/-- A successful read reporting a finite weight. -/
def readOk (q : ℚ) : WeightScale.ReadResult :=
  WeightScale.ReadResult.response 200 (Except.ok (some (JSNum.fin q)))

/-- A read that never reached the server. -/
def readDown : WeightScale.ReadResult :=
  WeightScale.ReadResult.rejected { message := "Failed to fetch" }

/-- A read answered with HTTP 503. -/
def read503 : WeightScale.ReadResult :=
  WeightScale.ReadResult.response 503 (Except.error { message := "Unexpected token <" })

/-! ## Lemmas on logs -/

namespace TicketManager

theorem requests_append (l₁ l₂ : List Effect) :
    requests (l₁ ++ l₂) = requests l₁ ++ requests l₂ := by
  induction l₁ with
  | nil => rfl
  | cons e rest ih => cases e <;> simp [requests, ih]

theorem messages_append (l₁ l₂ : List Effect) :
    messages (l₁ ++ l₂) = messages l₁ ++ messages l₂ := by
  induction l₁ with
  | nil => rfl
  | cons e rest ih => cases e <;> simp [messages, ih]

theorem reloads_append (l₁ l₂ : List Effect) :
    reloads (l₁ ++ l₂) = reloads l₁ + reloads l₂ := by
  induction l₁ with
  | nil => simp [reloads]
  | cons e rest ih =>
      cases e <;> simp [reloads, ih]
      omega

/-- The `try` block of `createTicket` sends nothing. -/
theorem requests_createTicket_try (result : FetchResult) (s : State) :
    requests (createTicket_try result s).1.log = requests s.log := by
  unfold createTicket_try
  split
  · rfl
  · split
    · rfl
    · split
      · rfl
      · split
        · rfl
        · simp [updateCardActionMessage, emit, requests_append, requests]

/-- The `try` block of `closeTicket` sends nothing. -/
theorem requests_closeTicket_try (ticketId : String) (result : FetchResult) (s : State) :
    requests (closeTicket_try ticketId result s).1.log = requests s.log := by
  unfold closeTicket_try
  split
  · rfl
  · split
    · rfl
    · split
      · rfl
      · simp [updateCardActionMessage, emit, requests_append, requests]

/-- The `catch` and `finally` blocks send nothing. -/
theorem requests_catchFinally (fallback : String) (r : State × Option JSError) :
    requests (catchFinally fallback r).log = requests r.1.log := by
  unfold catchFinally
  cases r.2 <;> simp [updateCardActionMessage, emit, requests_append, requests]

/-- A resumption sends no request. -/
theorem requests_resume (op : InFlight) (result : FetchResult) (s : State) :
    requests (op.resume result s).log = requests s.log := by
  cases op
  · simp [InFlight.resume, createTicket_resume, requests_catchFinally,
      requests_createTicket_try]
  · simp [InFlight.resume, closeTicket_resume, requests_catchFinally,
      requests_closeTicket_try]

/-- A resumption leaves the in-flight flag cleared. -/
theorem isProcessing_resume (op : InFlight) (result : FetchResult) (s : State) :
    (op.resume result s).isProcessing = false := by
  cases op <;> rfl

/-- Completing a begun call sends no request beyond those of its beginning. -/
theorem requests_complete (r : State × Option InFlight) (result : FetchResult) :
    requests (complete r result).log = requests r.1.log := by
  unfold complete
  cases r.2 with
  | none => rfl
  | some op => exact requests_resume op result r.1

/-- What `handleRfidScan` does with a non-empty card and a weight that passes
the check, when the flag is clear and the query finds a ticket card. -/
theorem handleRfidScan_begin_close (doc : Document) (card : String) (weight : JSNum)
    (s : State) (t : TicketCard) (hcard : card ≠ "")
    (hweight : (weight.isNaN || weight.leZero) = false) (hidle : s.isProcessing = false)
    (hview : doc.querySelector (openTicketSelector (some card)) = Except.ok (some t)) :
    handleRfidScan_begin doc (some card) weight s =
      ({ isProcessing := true
         log := s.log ++ [Effect.cardActionMessage "Processing card..." true,
           Effect.cardActionMessage ("Closing ticket #" ++ t.ticketId ++ "...") true,
           Effect.fetch (closeRequest t.ticketId weight)] },
        some (InFlight.closeTicket t.ticketId)) := by
  simp [handleRfidScan_begin, truthy, hcard, hweight, hview, closeTicket_begin,
    updateCardActionMessage, emit, hidle]

/-- What `handleRfidScan` does with a non-empty card and a weight that passes
the check, when the flag is clear and the query finds nothing. -/
theorem handleRfidScan_begin_create (doc : Document) (card : String) (weight : JSNum)
    (s : State) (hcard : card ≠ "")
    (hweight : (weight.isNaN || weight.leZero) = false) (hidle : s.isProcessing = false)
    (hview : doc.querySelector (openTicketSelector (some card)) = Except.ok none) :
    handleRfidScan_begin doc (some card) weight s =
      ({ isProcessing := true
         log := s.log ++ [Effect.cardActionMessage "Processing card..." true,
           Effect.cardActionMessage "Creating new ticket..." true,
           Effect.fetch (createRequest (some card) weight)] },
        some InFlight.createTicket) := by
  simp [handleRfidScan_begin, truthy, hcard, hweight, hview, createTicket_begin,
    updateCardActionMessage, emit, hidle]

/-- A finite weight above zero passes the weight check of `handleRfidScan`. -/
theorem weightCheck_fin_pos (q : ℚ) (hq : 0 < q) :
    ((JSNum.fin q).isNaN || (JSNum.fin q).leZero) = false := by
  simp [JSNum.isNaN, JSNum.leZero, hq]

/-- The selector built from a card id, character by character. -/
theorem openTicketSelector_data (card : String) :
    (openTicketSelector (some card)).data = selectorHead ++ card.data ++ selectorTail := by
  simp [openTicketSelector, jsString, dq, selectorHead, selectorTail, String.singleton,
    List.append_assoc]

/-- The selector built from a plain card id is the plain attribute selector
of that id. -/
theorem plainAttributeValue_selector (card : String) (hplain : cssPlain card = true) :
    plainAttributeValue (openTicketSelector (some card)) = some card := by
  have hinner :
      ((selectorHead ++ card.data ++ selectorTail).drop selectorHead.length).take
        ((selectorHead ++ card.data ++ selectorTail).length - selectorHead.length -
          selectorTail.length) = card.data := by
    rw [List.append_assoc, List.drop_left]
    have hlen : (selectorHead ++ (card.data ++ selectorTail)).length - selectorHead.length -
        selectorTail.length = card.data.length := by
      simp only [List.length_append]
      omega
    rw [hlen, List.take_left]
  unfold plainAttributeValue
  simp only [openTicketSelector_data, hinner]
  have hall : card.data.all cssPlainChar = true := hplain
  simp [hall]

/-- On the selector of a plain card id, `querySelector` answers with the
first ticket card of the page that carries the id. -/
theorem querySelector_plain (doc : Document) (card : String)
    (hplain : cssPlain card = true) :
    doc.querySelector (openTicketSelector (some card)) =
      Except.ok ((doc.ticketCards.find? (fun x => x.1 == card)).map Prod.snd) := by
  simp [Document.querySelector, plainAttributeValue_selector card hplain]

/-- The first ticket card that carries a card id, found by `find?`. -/
theorem find_first (cards before after : List (String × TicketCard)) (card : String)
    (t : TicketCard) (hsplit : cards = before ++ (card, t) :: after)
    (hbefore : ∀ x ∈ before, x.1 ≠ card) :
    cards.find? (fun x => x.1 == card) = some (card, t) := by
  have hnone : before.find? (fun x => x.1 == card) = none := by
    rw [List.find?_eq_none]
    intro x hx
    simpa using hbefore x hx
  rw [hsplit, List.find?_append, hnone]
  simp

/-- No ticket card carries a card id: `find?` finds none. -/
theorem find_none (cards : List (String × TicketCard)) (card : String)
    (hnone : ∀ x ∈ cards, x.1 ≠ card) :
    cards.find? (fun x => x.1 == card) = none := by
  rw [List.find?_eq_none]
  intro x hx
  simpa using hnone x hx

/-- With the flag set, a call of an entry point suspends nothing, sends
nothing and leaves the flag set. -/
theorem begin_busy (doc : Document) (c : Call) (s : State) (hbusy : s.isProcessing = true) :
    (c.begin doc s).2 = none ∧ requests (c.begin doc s).1.log = requests s.log ∧
      (c.begin doc s).1.isProcessing = true := by
  cases c with
  | createTicket rfidCard weight => simp [Call.begin, createTicket_begin, hbusy]
  | closeTicket ticketId tareWeight => simp [Call.begin, closeTicket_begin, hbusy]
  | handleRfidScan cardId weight =>
      simp only [Call.begin, handleRfidScan_begin]
      split
      · simp [handleRfidScan_catch, updateCardActionMessage, emit, requests_append, requests,
          hbusy]
      · split
        · simp [handleRfidScan_catch, updateCardActionMessage, emit, requests_append,
            requests, hbusy]
        · split <;>
            simp [closeTicket_begin, createTicket_begin, handleRfidScan_catch,
              updateCardActionMessage, emit, requests_append, requests, hbusy]

/-- With the flag clear, a call of an entry point either suspends one
activation and sets the flag, or suspends nothing and leaves the flag clear. -/
theorem begin_idle (doc : Document) (c : Call) (s : State) (hidle : s.isProcessing = false) :
    ((c.begin doc s).2 = none ∧ (c.begin doc s).1.isProcessing = false) ∨
      ((c.begin doc s).2.isSome = true ∧ (c.begin doc s).1.isProcessing = true) := by
  cases c with
  | createTicket rfidCard weight =>
      simp [Call.begin, createTicket_begin, hidle, updateCardActionMessage, emit]
  | closeTicket ticketId tareWeight =>
      simp [Call.begin, closeTicket_begin, hidle, updateCardActionMessage, emit]
  | handleRfidScan cardId weight =>
      simp only [Call.begin, handleRfidScan_begin]
      split
      · simp [handleRfidScan_catch, updateCardActionMessage, emit, hidle]
      · split
        · simp [handleRfidScan_catch, updateCardActionMessage, emit, hidle]
        · split <;>
            simp [closeTicket_begin, createTicket_begin, handleRfidScan_catch,
              updateCardActionMessage, emit, hidle]

/-- Every turn of the event loop keeps the guard invariant. -/
theorem Session.step_guarded (doc : Document) (σ : Session) (step : Step)
    (h : σ.Guarded) : (σ.step doc step).Guarded := by
  unfold Session.Guarded at h ⊢
  cases step with
  | call c =>
      simp only [Session.step, List.length_append]
      cases hp : σ.state.isProcessing with
      | true =>
          obtain ⟨h1, -, h3⟩ := begin_busy doc c σ.state hp
          simp [h1, h3, h, hp]
      | false =>
          rcases begin_idle doc c σ.state hp with ⟨h1, h2⟩ | ⟨h1, h2⟩
          · simp [h1, h2, h, hp]
          · obtain ⟨op, hop⟩ := Option.isSome_iff_exists.mp h1
            simp [hop, h2, h, hp]
  | settle index result =>
      cases hget : σ.outstanding[index]? with
      | none =>
          have hstep : σ.step doc (Step.settle index result) = σ := by
            simp [Session.step, hget]
          rw [hstep]
          exact h
      | some op =>
          have hstep : σ.step doc (Step.settle index result) =
              { state := op.resume result σ.state,
                outstanding := σ.outstanding.eraseIdx index } := by
            simp [Session.step, hget]
          obtain ⟨hlt, -⟩ := List.getElem?_eq_some.mp hget
          have hlen : σ.outstanding.length = 1 := by
            cases hp : σ.state.isProcessing
            · simp [hp] at h
              simp [h] at hlt
            · simpa [hp] using h
          rw [hstep]
          show (σ.outstanding.eraseIdx index).length =
            if (op.resume result σ.state).isProcessing = true then 1 else 0
          rw [List.length_eraseIdx_of_lt hlt, hlen, isProcessing_resume]
          rfl

/-- The guard invariant holds after any run of the event loop from page load. -/
theorem Session.run_guarded (doc : Document) (steps : List Step) :
    (Session.init.run doc steps).Guarded := by
  suffices h : ∀ σ : Session, σ.Guarded → (σ.run doc steps).Guarded from
    h Session.init (by simp [Session.Guarded, Session.init, State.init])
  induction steps with
  | nil => intro σ h; simpa [Session.run] using h
  | cons step rest ih =>
      intro σ h
      simpa [Session.run] using ih (σ.step doc step) (Session.step_guarded doc σ step h)

/-- Calls made while the flag is set change neither the flag nor the list of
suspended activations. -/
theorem Session.run_calls_busy (doc : Document) (calls : List Call) (σ : Session)
    (hbusy : σ.state.isProcessing = true) :
    (σ.run doc (calls.map Step.call)).outstanding = σ.outstanding ∧
      (σ.run doc (calls.map Step.call)).state.isProcessing = true := by
  induction calls generalizing σ with
  | nil => exact ⟨rfl, hbusy⟩
  | cons c rest ih =>
      obtain ⟨h1, -, h3⟩ := begin_busy doc c σ.state hbusy
      have hstep : (σ.step doc (Step.call c)).outstanding = σ.outstanding := by
        simp [Session.step, h1]
      have hflag : (σ.step doc (Step.call c)).state.isProcessing = true := by
        simpa [Session.step] using h3
      have := ih (σ.step doc (Step.call c)) hflag
      simpa [Session.run, hstep] using this

/-- A suspended activation that is alone, once settled after any calls made
meanwhile, leaves the flag clear and nothing suspended. -/
theorem Session.settle_after_calls (doc : Document) (calls : List Call) (s : State)
    (op : InFlight) (result : FetchResult) (hbusy : s.isProcessing = true) :
    ((Session.run doc { state := s, outstanding := [op] }
        (calls.map Step.call ++ [Step.settle 0 result])).state.isProcessing = false) ∧
      (Session.run doc { state := s, outstanding := [op] }
        (calls.map Step.call ++ [Step.settle 0 result])).outstanding = [] := by
  obtain ⟨h1, -⟩ := Session.run_calls_busy doc calls { state := s, outstanding := [op] } hbusy
  simp only [Session.run, List.foldl_append, List.foldl_cons, List.foldl_nil] at h1 ⊢
  simp [Session.step, h1, isProcessing_resume]

/-- A property read on an object does not throw. -/
theorem get_object (fields : List (String × JSField)) (name : String) :
    ∃ v, (JSONBody.object fields).get name = Except.ok v := by
  simp only [JSONBody.get]
  split
  · exact ⟨_, rfl⟩
  · exact ⟨_, rfl⟩

/-- The refreshes the `try` block of `createTicket` schedules. -/
theorem reloads_createTicket_resume (result : FetchResult) (s : State) :
    reloads (createTicket_resume result s).log =
      reloads s.log + (if result.createCompletes then 1 else 0) := by
  cases result with
  | rejected e =>
      simp [createTicket_resume, createTicket_try, catchFinally, updateCardActionMessage,
        emit, reloads_append, reloads, FetchResult.createCompletes, FetchResult.successBody]
  | resolved response =>
      cases hok : response.ok with
      | false =>
          simp [createTicket_resume, createTicket_try, catchFinally, updateCardActionMessage,
            emit, reloads_append, reloads, FetchResult.createCompletes,
            FetchResult.successBody, hok]
      | true =>
          cases hj : response.json with
          | error e =>
              simp [createTicket_resume, createTicket_try, catchFinally,
                updateCardActionMessage, emit, reloads_append, reloads,
                FetchResult.createCompletes, FetchResult.successBody, hok, hj]
          | ok body =>
              cases body with
              | null =>
                  simp [createTicket_resume, createTicket_try, catchFinally,
                    updateCardActionMessage, emit, reloads_append, reloads,
                    FetchResult.createCompletes, FetchResult.successBody, hok, hj,
                    JSONBody.get]
              | object fields =>
                  obtain ⟨v, hv⟩ := get_object fields "id"
                  simp [createTicket_resume, createTicket_try, catchFinally,
                    updateCardActionMessage, emit, reloads_append, reloads,
                    FetchResult.createCompletes, FetchResult.successBody, hok, hj, hv]
              | nonObject =>
                  simp [createTicket_resume, createTicket_try, catchFinally,
                    updateCardActionMessage, emit, reloads_append, reloads,
                    FetchResult.createCompletes, FetchResult.successBody, hok, hj,
                    JSONBody.get]

/-- The refreshes the `try` block of `closeTicket` schedules. -/
theorem reloads_closeTicket_resume (ticketId : String) (result : FetchResult) (s : State) :
    reloads (closeTicket_resume ticketId result s).log =
      reloads s.log + (if result.closeCompletes then 1 else 0) := by
  cases result with
  | rejected e =>
      simp [closeTicket_resume, closeTicket_try, catchFinally, updateCardActionMessage,
        emit, reloads_append, reloads, FetchResult.closeCompletes, FetchResult.successBody]
  | resolved response =>
      cases hok : response.ok with
      | false =>
          simp [closeTicket_resume, closeTicket_try, catchFinally, updateCardActionMessage,
            emit, reloads_append, reloads, FetchResult.closeCompletes,
            FetchResult.successBody, hok]
      | true =>
          cases hj : response.json <;>
            simp [closeTicket_resume, closeTicket_try, catchFinally,
              updateCardActionMessage, emit, reloads_append, reloads,
              FetchResult.closeCompletes, FetchResult.successBody, hok, hj]

end TicketManager

namespace RFIDReader

theorem cardEvents_append (l₁ l₂ : List Effect) :
    cardEvents (l₁ ++ l₂) = cardEvents l₁ ++ cardEvents l₂ := by
  induction l₁ with
  | nil => rfl
  | cons e rest ih => cases e <;> simp [cardEvents, ih]

theorem forwarded_append (l₁ l₂ : List Effect) :
    forwarded (l₁ ++ l₂) = forwarded l₁ ++ forwarded l₂ := by
  induction l₁ with
  | nil => rfl
  | cons e rest ih => cases e <;> simp [forwarded, ih]

/-- The name `getCurrentWeight` is not a property of the scale module. -/
theorem reader_getCurrentWeight : WeightScale.reader "getCurrentWeight" = none := by
  unfold WeightScale.reader
  rw [if_neg (by decide)]

/-- What `processCardScan` does on a non-empty card id: it logs its entry and
throws. -/
theorem processCardScan_truthy (doc : Document) (cardId : Option String) (w : World)
    (h : truthy cardId = true) :
    processCardScan doc cardId w =
      (w.emit (Effect.processCardScan cardId),
        some ⟨"WeightScale.getCurrentWeight is not a function"⟩) := by
  simp [processCardScan, h, reader_getCurrentWeight]

/-- What `processCardScan` does on an empty card id: it logs its entry and
returns. -/
theorem processCardScan_falsy (doc : Document) (cardId : Option String) (w : World)
    (h : truthy cardId = false) :
    processCardScan doc cardId w = (w.emit (Effect.processCardScan cardId), none) := by
  simp [processCardScan, h]

/-- `updateCardDisplay` records its call and touches nothing else. -/
theorem updateCardDisplay_fst (doc : Document) (cardId errorMessage : Option String)
    (w : World) :
    (updateCardDisplay doc cardId errorMessage w).1 =
      w.emit (Effect.updateCardDisplay cardId errorMessage) := by
  unfold updateCardDisplay
  split
  · split <;> rfl
  · rfl

/-- One tick of the polling loop on a successful response, spelled out: a
new card ends in the error of `processCardScan`; otherwise the display is
updated, and when that throws the error path follows. -/
theorem pollForCard_data (doc : Document) (r : Option String) (w : World) :
    ∃ rest : List Effect, cardEvents rest = [] ∧
      pollForCard doc (PollResult.data r) w =
        if truthy r && r != w.rfid.lastCardId then
          { w with rfid := { w.rfid with
              lastCardId := r
              log := w.rfid.log ++
                [Effect.fetch "/api/rfid/current", Effect.processCardScan r,
                 Effect.consoleError "WeightScale.getCurrentWeight is not a function",
                 Effect.updateCardDisplay none
                   (some "WeightScale.getCurrentWeight is not a function")] } }
        else
          { w with rfid := { w.rfid with
              log := w.rfid.log ++
                (Effect.fetch "/api/rfid/current" ::
                  Effect.updateCardDisplay (orElse r w.rfid.simulatedCardId) none ::
                  rest) } } := by
  by_cases hc : (truthy r && r != w.rfid.lastCardId) = true
  · have ht : truthy r = true := by
      simp only [Bool.and_eq_true] at hc
      exact hc.1
    refine ⟨[], rfl, ?_⟩
    simp only [pollForCard, pollForCard_resume, pollForCard_begin, World.emit, hc, if_true]
    rw [processCardScan_truthy doc r _ ht]
    simp [pollForCard_catch, World.emit, JSError.messageOr]
  · cases hd : (updateCardDisplay doc (orElse r w.rfid.simulatedCardId) none
        (pollForCard_begin w)).2 with
    | none =>
        refine ⟨[], rfl, ?_⟩
        have h1 := updateCardDisplay_fst doc (orElse r w.rfid.simulatedCardId) none
          (pollForCard_begin w)
        simp only [pollForCard, pollForCard_resume, hc, pollForCard_begin, World.emit] at *
        simp [hd, h1]
    | some e =>
        refine ⟨[Effect.consoleError e.message,
          Effect.updateCardDisplay none (some (e.messageOr "Error polling for card"))],
          rfl, ?_⟩
        have h1 := updateCardDisplay_fst doc (orElse r w.rfid.simulatedCardId) none
          (pollForCard_begin w)
        simp only [pollForCard, pollForCard_resume, hc, pollForCard_begin, World.emit] at *
        simp [hd, h1, pollForCard_catch, World.emit]

/-- The card events one tick of the polling loop adds. -/
theorem cardEvents_pollForCard (doc : Document) (r : Option String) (w : World) :
    cardEvents (pollForCard doc (PollResult.data r) w).rfid.log =
      cardEvents w.rfid.log ++
        (if truthy r && r != w.rfid.lastCardId then [r] else []) := by
  obtain ⟨rest, hrest, h⟩ := pollForCard_data doc r w
  rw [h]
  split <;> simp [cardEvents_append, cardEvents, hrest]

/-- How one tick of the polling loop moves `lastCardId`. -/
theorem lastCardId_pollForCard (doc : Document) (r : Option String) (w : World) :
    (pollForCard doc (PollResult.data r) w).rfid.lastCardId =
      if truthy r && r != w.rfid.lastCardId then r else w.rfid.lastCardId := by
  obtain ⟨rest, -, h⟩ := pollForCard_data doc r w
  rw [h]
  split <;> rfl

/-- One tick of the polling loop leaves `simulatedCardId` alone. -/
theorem simulatedCardId_pollForCard (doc : Document) (r : Option String) (w : World) :
    (pollForCard doc (PollResult.data r) w).rfid.simulatedCardId =
      w.rfid.simulatedCardId := by
  obtain ⟨rest, -, h⟩ := pollForCard_data doc r w
  rw [h]
  split <;> rfl

/-- One tick of the polling loop keeps the edge-trigger invariant. -/
theorem EdgeTriggered.pollForCard (doc : Document) (r : Option String) (w : World)
    (h : EdgeTriggered w) : EdgeTriggered (pollForCard doc (PollResult.data r) w) := by
  intro r' hr'
  rw [lastCardId_pollForCard, cardEvents_pollForCard]
  by_cases hc : (truthy r && r != w.rfid.lastCardId) = true
  · simp only [hc, if_true]
    have hlast : (cardEvents w.rfid.log ++ [r]).getLast? = some r := by simp
    rw [hlast]
    constructor
    · intro hne heq
      cases Option.some.inj heq
      simp at hne
    · intro hne
      simp only [bne_iff_ne, ne_eq]
      intro heq
      exact hne (by rw [heq])
  · simp only [hc]
    simp only [Bool.false_eq_true, if_false, List.append_nil]
    exact h r' hr'

/-- The edge-trigger invariant holds after any successful polls from a world
where it holds. -/
theorem EdgeTriggered.pollAll (doc : Document) (rs : List (Option String)) (w : World)
    (h : EdgeTriggered w) : EdgeTriggered (pollAll doc w rs) := by
  induction rs generalizing w with
  | nil => exact h
  | cons r rest ih => exact ih _ (EdgeTriggered.pollForCard doc r w h)

/-- The card events of successful polls do not depend on the document. -/
theorem pollAll_document (doc doc' : Document) (rs : List (Option String)) (w w' : World)
    (hlast : w.rfid.lastCardId = w'.rfid.lastCardId)
    (hevents : cardEvents w.rfid.log = cardEvents w'.rfid.log) :
    cardEvents (pollAll doc w rs).rfid.log = cardEvents (pollAll doc' w' rs).rfid.log := by
  induction rs generalizing w w' with
  | nil => exact hevents
  | cons r rest ih =>
      show cardEvents (pollAll doc (pollForCard doc (PollResult.data r) w) rest).rfid.log =
        cardEvents (pollAll doc' (pollForCard doc' (PollResult.data r) w') rest).rfid.log
      apply ih
      · rw [lastCardId_pollForCard, lastCardId_pollForCard, hlast]
      · rw [cardEvents_pollForCard, cardEvents_pollForCard, hlast, hevents]

/-- The edge-trigger invariant holds on the page just loaded. -/
theorem EdgeTriggered.init : EdgeTriggered World.init := by
  intro r hr
  cases r with
  | none => simp [truthy] at hr
  | some c => simp [World.init, State.init, cardEvents]

end RFIDReader

/-- A property read on a JSON value other than `null` that has no such
property gives `undefined`. -/
theorem get_absent (body : JSONBody) (name : String)
    (h : body = JSONBody.nonObject ∨
      ∃ fields, body = JSONBody.object fields ∧ fields.lookup name = none) :
    body.get name = Except.ok JSField.undefined := by
  rcases h with h | ⟨fields, h, hlookup⟩
  · rw [h]
    rfl
  · rw [h]
    simp [JSONBody.get, hlookup]

/-- A text that starts with a non-empty text is not empty. -/
theorem append_ne_empty (a b : String) (h : a.length ≠ 0) : ¬ (a ++ b = "") := by
  intro heq
  have h1 := congrArg String.length heq
  rw [String.length_append] at h1
  have h2 : "".length = 0 := rfl
  omega

/-- The message of the `TypeError` of a property read on `null` is not
empty. -/
theorem nullReadMessage_ne (property : String) : ¬ (nullReadMessage property = "") := by
  unfold nullReadMessage
  apply append_ne_empty
  rw [String.length_append]
  have h : "Cannot read properties of null (reading ".length = 40 := by decide
  omega

namespace RFIDReader

/-- What `simulateCardScan` does on a non-empty card id: it records the id,
calls `processCardScan`, and ends in the error that call throws. -/
theorem simulateCardScan_truthy (doc : Document) (cardId : Option String) (w : World)
    (h : truthy cardId = true) :
    simulateCardScan doc cardId w =
      (World.emit (Effect.processCardScan cardId)
          { w with rfid := { w.rfid with simulatedCardId := cardId } },
        some ⟨"WeightScale.getCurrentWeight is not a function"⟩) := by
  simp [simulateCardScan, h, processCardScan_truthy]

/-- The reader after one more input. -/
theorem feedAll_concat (doc : Document) (w : World) (inputs : List CardInput)
    (x : CardInput) :
    World.feedAll doc w (inputs ++ [x]) = World.feed doc (World.feedAll doc w inputs) x := by
  simp [World.feedAll, List.foldl_append]

/-- The latest polled card after one more input. -/
theorem lastPolledCard_concat (inputs : List CardInput) (x : CardInput) :
    lastPolledCard (inputs ++ [x]) =
      match x.polledCard with
      | some c => some c
      | none => lastPolledCard inputs := by
  simp only [lastPolledCard, List.reverse_append, List.reverse_cons, List.reverse_nil,
    List.nil_append, List.singleton_append, List.findSome?_cons]
  cases x.polledCard <;> rfl

/-- The latest injected card after one more input. -/
theorem lastInjectedCard_concat (inputs : List CardInput) (x : CardInput) :
    lastInjectedCard (inputs ++ [x]) =
      match x.injectedCard with
      | some c => some c
      | none => lastInjectedCard inputs := by
  simp only [lastInjectedCard, List.reverse_append, List.reverse_cons, List.reverse_nil,
    List.nil_append, List.singleton_append, List.findSome?_cons]
  cases x.injectedCard <;> rfl

/-- How one input moves `lastCardId`. -/
theorem feed_lastCardId (doc : Document) (w : World) (x : CardInput) :
    (World.feed doc w x).rfid.lastCardId =
      match x.polledCard with
      | some c => some c
      | none => w.rfid.lastCardId := by
  cases x with
  | polled result =>
      cases result with
      | failed e =>
          simp [World.feed, pollForCard, pollForCard_resume, pollForCard_catch,
            pollForCard_begin, World.emit, CardInput.polledCard]
      | data r =>
          simp only [World.feed, CardInput.polledCard]
          rw [lastCardId_pollForCard]
          cases ht : truthy r
          · simp
          · cases r with
            | none => simp [truthy] at ht
            | some c =>
                by_cases hne : (some c != w.rfid.lastCardId) = true
                · simp [hne]
                · have heq : w.rfid.lastCardId = some c := by
                    simp only [bne_iff_ne, ne_eq, not_not] at hne
                    exact hne.symm
                  simp [hne, heq]
  | injected cardId =>
      cases ht : truthy cardId
      · simp [World.feed, simulateCardScan, ht, CardInput.polledCard]
      · simp [World.feed, simulateCardScan_truthy doc cardId w ht, World.emit,
          CardInput.polledCard]

/-- How one input moves `simulatedCardId`. -/
theorem feed_simulatedCardId (doc : Document) (w : World) (x : CardInput) :
    (World.feed doc w x).rfid.simulatedCardId =
      match x.injectedCard with
      | some c => some c
      | none => w.rfid.simulatedCardId := by
  cases x with
  | polled result =>
      cases result with
      | failed e =>
          simp [World.feed, pollForCard, pollForCard_resume, pollForCard_catch,
            pollForCard_begin, World.emit, CardInput.injectedCard]
      | data r =>
          simp only [World.feed, CardInput.injectedCard]
          rw [simulatedCardId_pollForCard]
  | injected cardId =>
      cases ht : truthy cardId
      · simp [World.feed, simulateCardScan, ht, CardInput.injectedCard]
      · cases cardId with
        | none => simp [truthy] at ht
        | some c =>
            simp [World.feed, simulateCardScan_truthy doc (some c) w ht, World.emit,
              CardInput.injectedCard, ht]

/-- After any inputs from page load, `lastCardId` is the latest polled card
and `simulatedCardId` the latest injected one. -/
theorem feedAll_cards (doc : Document) (inputs : List CardInput) :
    (World.feedAll doc World.init inputs).rfid.lastCardId = lastPolledCard inputs ∧
      (World.feedAll doc World.init inputs).rfid.simulatedCardId = lastInjectedCard inputs := by
  induction inputs using List.reverseRecOn with
  | nil => exact ⟨rfl, rfl⟩
  | append_singleton rest x ih =>
      rw [feedAll_concat, feed_lastCardId, feed_simulatedCardId, lastPolledCard_concat,
        lastInjectedCard_concat, ih.1, ih.2]
      exact ⟨rfl, rfl⟩

/-- The latest polled card, when there is one, is not empty. -/
theorem lastPolledCard_truthy (inputs : List CardInput) (c : String)
    (h : lastPolledCard inputs = some c) : truthy (some c) = true := by
  induction inputs using List.reverseRecOn with
  | nil => simp [lastPolledCard] at h
  | append_singleton rest x ih =>
      rw [lastPolledCard_concat] at h
      cases hx : x.polledCard with
      | none =>
          rw [hx] at h
          exact ih h
      | some d =>
          rw [hx] at h
          cases h
          cases x with
          | polled result =>
              cases result with
              | failed e => simp [CardInput.polledCard] at hx
              | data r =>
                  simp only [CardInput.polledCard] at hx
                  split at hx
                  · rename_i ht
                    rw [hx] at ht
                    exact ht
                  · cases hx
          | injected cardId => simp [CardInput.polledCard] at hx

/-- The latest injected card, when there is one, is not empty. -/
theorem lastInjectedCard_truthy (inputs : List CardInput) (c : String)
    (h : lastInjectedCard inputs = some c) : truthy (some c) = true := by
  induction inputs using List.reverseRecOn with
  | nil => simp [lastInjectedCard] at h
  | append_singleton rest x ih =>
      rw [lastInjectedCard_concat] at h
      cases hx : x.injectedCard with
      | none =>
          rw [hx] at h
          exact ih h
      | some d =>
          rw [hx] at h
          cases h
          cases x with
          | polled result => simp [CardInput.injectedCard] at hx
          | injected cardId =>
              simp only [CardInput.injectedCard] at hx
              split at hx
              · rename_i ht
                rw [hx] at ht
                exact ht
              · cases hx

end RFIDReader

namespace WeightScale

/-- What the `catch` block of `readWeight` does: it counts one more failure
and reports the disconnected state exactly when the count reaches three. -/
theorem readWeight_catch_spec (e : JSError) (s : State) :
    ∃ delta, (readWeight_catch e s).log = s.log ++ delta ∧
      (Effect.updateConnectionStatus false ∈ delta ↔ 3 ≤ s.connectionAttempts + 1) ∧
      Effect.updateConnectionStatus true ∉ delta ∧
      (readWeight_catch e s).connectionAttempts = s.connectionAttempts + 1 := by
  by_cases h : 3 ≤ s.connectionAttempts + 1
  · refine ⟨[Effect.consoleError e.message, Effect.updateConnectionStatus false,
      Effect.showErrorInDisplay], ?_, ?_, ?_, ?_⟩ <;>
      simp [readWeight_catch, emit, updateConnectionStatus, showErrorInDisplay, h]
  · refine ⟨[Effect.consoleError e.message], ?_, ?_, ?_, ?_⟩ <;>
      simp [readWeight_catch, emit, updateConnectionStatus, showErrorInDisplay, h]

/-- What `updateWeightDisplay` adds to the log, and that it leaves the failure
count alone. -/
theorem updateWeightDisplay_spec (page : Elements) (w : JSNum) (s : State) :
    ∃ delta, (updateWeightDisplay page w s).log = s.log ++ delta ∧
      Effect.updateConnectionStatus false ∉ delta ∧
      (updateWeightDisplay page w s).connectionAttempts = s.connectionAttempts := by
  by_cases h : page.getElementById s.weightDisplayId = true
  · exact ⟨[Effect.displayWeight w], by simp [updateWeightDisplay, emit, h],
      by simp, by simp [updateWeightDisplay, emit, h]⟩
  · exact ⟨[], by simp [updateWeightDisplay, h], by simp, by simp [updateWeightDisplay, h]⟩

/-- One tick of the monitor: the failure count it leaves, when it reports the
disconnected state, and that a successful read reports the connected one. -/
theorem readWeight_spec (page : Elements) (r : ReadResult) (s : State) :
    (readWeight page r s).connectionAttempts =
        (if r.isSuccess then 0
         else if r.isFailedRead then s.connectionAttempts + 1 else 1) ∧
      (Effect.updateConnectionStatus false ∈ reported s (readWeight page r s) ↔
        (r.isSuccess = false ∧ 3 ≤ (readWeight page r s).connectionAttempts)) ∧
      (r.isSuccess = true →
        Effect.updateConnectionStatus true ∈ reported s (readWeight page r s)) := by
  have hrep : ∀ (s' : State) (delta : List Effect), s'.log = s.log ++ delta →
      reported s s' = delta := by
    intro s' delta h
    simp [reported, h]
  cases r with
  | rejected e =>
      obtain ⟨delta, hlog, hdis, -, hcount⟩ :=
        readWeight_catch_spec e (readWeight_begin s)
      have hlog' : (readWeight page (ReadResult.rejected e) s).log =
          s.log ++ (Effect.fetch "/api/weight/read" :: delta) := by
        simpa [readWeight, readWeight_resume, readWeight_begin, emit] using hlog
      have hc : (readWeight page (ReadResult.rejected e) s).connectionAttempts =
          s.connectionAttempts + 1 := by
        simpa [readWeight, readWeight_resume, readWeight_begin, emit] using hcount
      rw [hrep _ _ hlog', hc]
      simp only [readWeight_begin, emit] at hdis
      simp [ReadResult.isSuccess, ReadResult.isFailedRead, hdis]
  | response status weight =>
      cases hok : statusOk status with
      | false =>
          obtain ⟨delta, hlog, hdis, -, hcount⟩ :=
            readWeight_catch_spec ⟨"HTTP error! status: " ++ toString status⟩
              (readWeight_begin s)
          have hlog' : (readWeight page (ReadResult.response status weight) s).log =
              s.log ++ (Effect.fetch "/api/weight/read" :: delta) := by
            simpa [readWeight, readWeight_resume, readWeight_begin, emit, hok] using hlog
          have hc : (readWeight page (ReadResult.response status weight) s).connectionAttempts
              = s.connectionAttempts + 1 := by
            simpa [readWeight, readWeight_resume, readWeight_begin, emit, hok] using hcount
          rw [hrep _ _ hlog', hc]
          simp only [readWeight_begin, emit] at hdis
          cases weight <;> simp [ReadResult.isSuccess, ReadResult.isFailedRead, hok, hdis]
      | true =>
          cases weight with
          | error e =>
              obtain ⟨delta, hlog, hdis, -, hcount⟩ :=
                readWeight_catch_spec e
                  { updateConnectionStatus true (readWeight_begin s) with
                    connectionAttempts := 0 }
              have hlog' :
                  (readWeight page (ReadResult.response status (Except.error e)) s).log =
                  s.log ++ (Effect.fetch "/api/weight/read" ::
                    Effect.updateConnectionStatus true :: delta) := by
                simpa [readWeight, readWeight_resume, readWeight_begin, emit, hok,
                  updateConnectionStatus] using hlog
              have hc :
                  (readWeight page (ReadResult.response status (Except.error e))
                    s).connectionAttempts = 1 := by
                simpa [readWeight, readWeight_resume, readWeight_begin, emit, hok,
                  updateConnectionStatus] using hcount
              rw [hrep _ _ hlog', hc]
              simp at hdis
              simp [ReadResult.isSuccess, ReadResult.isFailedRead, hok, hdis]
          | ok w =>
              cases w with
              | none =>
                  have hlog' :
                      (readWeight page (ReadResult.response status (Except.ok none)) s).log =
                      s.log ++ [Effect.fetch "/api/weight/read",
                        Effect.updateConnectionStatus true] := by
                    simp [readWeight, readWeight_resume, readWeight_begin, emit, hok,
                      updateConnectionStatus]
                  rw [hrep _ _ hlog']
                  simp [ReadResult.isSuccess, hok, readWeight, readWeight_resume,
                    readWeight_begin, emit, updateConnectionStatus]
              | some x =>
                  by_cases ht : x.isTruthy = true
                  · obtain ⟨delta, hlog, hdis, hcount⟩ :=
                      updateWeightDisplay_spec page x
                        { updateConnectionStatus true (readWeight_begin s) with
                          connectionAttempts := 0 }
                    have hlog' :
                        (readWeight page (ReadResult.response status (Except.ok (some x)))
                          s).log =
                        s.log ++ (Effect.fetch "/api/weight/read" ::
                          Effect.updateConnectionStatus true :: delta) := by
                      simpa [readWeight, readWeight_resume, readWeight_begin, emit, hok,
                        updateConnectionStatus, ht] using hlog
                    have hc :
                        (readWeight page (ReadResult.response status (Except.ok (some x)))
                          s).connectionAttempts = 0 := by
                      simpa [readWeight, readWeight_resume, readWeight_begin, emit, hok,
                        updateConnectionStatus, ht] using hcount
                    rw [hrep _ _ hlog', hc]
                    simp [ReadResult.isSuccess, hok, hdis]
                  · have hlog' :
                        (readWeight page (ReadResult.response status (Except.ok (some x)))
                          s).log =
                        s.log ++ [Effect.fetch "/api/weight/read",
                          Effect.updateConnectionStatus true] := by
                      simp [readWeight, readWeight_resume, readWeight_begin, emit, hok,
                        updateConnectionStatus, ht]
                    rw [hrep _ _ hlog']
                    simp [ReadResult.isSuccess, hok, readWeight, readWeight_resume,
                      readWeight_begin, emit, updateConnectionStatus, ht]

/-- The run of failures after one more read. -/
theorem trailingFailures_concat (results : List ReadResult) (r : ReadResult) :
    trailingFailures (results ++ [r]) =
      if r.isSuccess then 0 else trailingFailures results + 1 := by
  cases h : r.isSuccess <;> simp [trailingFailures, List.takeWhile_cons, h]

/-- The monitor after one more read. -/
theorem readAll_concat (page : Elements) (s : State) (results : List ReadResult)
    (r : ReadResult) :
    readAll page s (results ++ [r]) = readWeight page r (readAll page s results) := by
  simp [readAll, List.foldl_append]

/-- The failure count never exceeds the length of the current run of
failures. -/
theorem connectionAttempts_le (page : Elements) (s₀ : State) (results : List ReadResult)
    (hstart : s₀.connectionAttempts = 0) :
    (readAll page s₀ results).connectionAttempts ≤ trailingFailures results := by
  induction results using List.reverseRecOn with
  | nil => simp [readAll, hstart]
  | append_singleton rs r ih =>
      rw [readAll_concat, trailingFailures_concat, (readWeight_spec page r _).1]
      cases r.isSuccess <;> cases r.isFailedRead <;> simp
      all_goals omega

/-- When every read is a successful read, a network error or a non-success
status, the failure count is the length of the current run of failures. -/
theorem connectionAttempts_eq (page : Elements) (s₀ : State) (results : List ReadResult)
    (hstart : s₀.connectionAttempts = 0)
    (hkind : ∀ x ∈ results, x.isSuccess = true ∨ x.isFailedRead = true) :
    (readAll page s₀ results).connectionAttempts = trailingFailures results := by
  induction results using List.reverseRecOn with
  | nil => simp [readAll, hstart, trailingFailures]
  | append_singleton rs r ih =>
      have ih' := ih (fun x hx => hkind x (List.mem_append_left _ hx))
      have hr := hkind r (by simp)
      rw [readAll_concat, trailingFailures_concat, (readWeight_spec page r _).1, ih']
      rcases hr with h | h
      · simp [h]
      · cases hs : r.isSuccess <;> simp [h]

end WeightScale

/-! ## The claims -/

open TicketManager

/-- C1 (as stated, refuted): on the page whose only open ticket card is
ticket 7 of card A1, with the flag clear and the valid weight 10, the
non-empty card id `A"1` makes the lookup throw and no request is sent, the
error being reported instead; and the card id `A\31`, for which the page
holds no ticket card, sends the close request of ticket 7. -/
theorem handleRfidScan_counterexample :
    quotedCard ≠ "" ∧
    requests (handleRfidScan pageA1 (some quotedCard) (JSNum.fin 10) okCreated
        State.init).log = [] ∧
    messages (handleRfidScan pageA1 (some quotedCard) (JSNum.fin 10) okCreated
        State.init).log =
      [("Processing card...", true), ("SyntaxError: not a valid selector", false)] ∧
    escapedCard ≠ "" ∧
    (∀ x ∈ pageA1.ticketCards, x.1 ≠ escapedCard) ∧
    requests (handleRfidScan pageA1 (some escapedCard) (JSNum.fin 10) okCreated
        State.init).log =
      [{ method := "POST", url := "/api/tickets/7/close", headers := jsonHeaders,
         body := [("tare_weight", JsonValue.number 10)] }] := by
  decide

/-- C1 (amended): for a non-empty card id free of double quotes, backslashes,
line breaks and null characters, and a valid weight (a finite number above
zero), with no ticket operation in flight, `handleRfidScan` sends exactly one
request, at once and none later whatever the outcome: when the page holds a
ticket card carrying the card id, it is the close request of the first such
card `t` with `tare_weight` the weight, which is no create request; when the
page holds none, it is the create request with `rfid_card` the card and
`gross_weight` the weight, which is no close request. -/
theorem handleRfidScan_one_request (doc : Document) (card : String) (q : ℚ)
    (result : FetchResult) (s : State)
    (hcard : card ≠ "") (hplain : cssPlain card = true) (hq : 0 < q)
    (hidle : s.isProcessing = false) :
    (∀ (before after : List (String × TicketCard)) (t : TicketCard),
      doc.ticketCards = before ++ (card, t) :: after → (∀ x ∈ before, x.1 ≠ card) →
      requests (handleRfidScan_begin doc (some card) (JSNum.fin q) s).1.log =
        requests s.log ++
          [{ method := "POST", url := "/api/tickets/" ++ t.ticketId ++ "/close",
             headers := jsonHeaders, body := [("tare_weight", JsonValue.number q)] }] ∧
      requests (handleRfidScan doc (some card) (JSNum.fin q) result s).log =
        requests s.log ++
          [{ method := "POST", url := "/api/tickets/" ++ t.ticketId ++ "/close",
             headers := jsonHeaders, body := [("tare_weight", JsonValue.number q)] }] ∧
      ∀ (c : Option String) (w : JSNum),
        closeRequest t.ticketId (JSNum.fin q) ≠ createRequest c w) ∧
    ((∀ x ∈ doc.ticketCards, x.1 ≠ card) →
      requests (handleRfidScan_begin doc (some card) (JSNum.fin q) s).1.log =
        requests s.log ++
          [{ method := "POST", url := "/api/tickets", headers := jsonHeaders,
             body := [("rfid_card", JsonValue.string card),
                      ("gross_weight", JsonValue.number q)] }] ∧
      requests (handleRfidScan doc (some card) (JSNum.fin q) result s).log =
        requests s.log ++
          [{ method := "POST", url := "/api/tickets", headers := jsonHeaders,
             body := [("rfid_card", JsonValue.string card),
                      ("gross_weight", JsonValue.number q)] }] ∧
      ∀ (i : String) (w : JSNum),
        createRequest (some card) (JSNum.fin q) ≠ closeRequest i w) := by
  have hw := weightCheck_fin_pos q hq
  have hquery := querySelector_plain doc card hplain
  refine ⟨fun before after t hsplit hbefore => ?_, fun hnone => ?_⟩
  · rw [find_first doc.ticketCards before after card t hsplit hbefore] at hquery
    have hb := handleRfidScan_begin_close doc card (JSNum.fin q) s t hcard hw hidle hquery
    have h1 : requests (handleRfidScan_begin doc (some card) (JSNum.fin q) s).1.log =
        requests s.log ++ [closeRequest t.ticketId (JSNum.fin q)] := by
      rw [hb]
      simp [requests_append, requests]
    refine ⟨h1, ?_, ?_⟩
    · unfold handleRfidScan
      rw [requests_complete]
      exact h1
    · intro c w h
      have := congrArg (fun r => r.body.length) h
      simp [closeRequest, createRequest] at this
  · rw [find_none doc.ticketCards card hnone] at hquery
    have hb := handleRfidScan_begin_create doc card (JSNum.fin q) s hcard hw hidle hquery
    have h1 : requests (handleRfidScan_begin doc (some card) (JSNum.fin q) s).1.log =
        requests s.log ++ [createRequest (some card) (JSNum.fin q)] := by
      rw [hb]
      simp [requests_append, requests]
    refine ⟨h1, ?_, ?_⟩
    · unfold handleRfidScan
      rw [requests_complete]
      exact h1
    · intro i w h
      have := congrArg (fun r => r.body.length) h
      simp [closeRequest, createRequest] at this

/-- C1 (amended) at the two scenarios: card A1 with no open ticket and weight
42.5 sends the one create request; card A1 with open ticket 7 and weight 10
sends the one close request of ticket 7. -/
theorem handleRfidScan_one_request_witness :
    requests (handleRfidScan emptyPage (some "A1") (JSNum.fin (mkRat 85 2)) okCreated
        State.init).log =
      requests State.init.log ++
        [{ method := "POST", url := "/api/tickets", headers := jsonHeaders,
           body := [("rfid_card", JsonValue.string "A1"),
                    ("gross_weight", JsonValue.number (mkRat 85 2))] }] ∧
    requests (handleRfidScan pageA1 (some "A1") (JSNum.fin 10) okCreated State.init).log =
      requests State.init.log ++
        [{ method := "POST", url := "/api/tickets/" ++ "7" ++ "/close",
           headers := jsonHeaders, body := [("tare_weight", JsonValue.number 10)] }] :=
  ⟨((handleRfidScan_one_request emptyPage "A1" (mkRat 85 2) okCreated State.init
      (by decide) (by decide) (by decide) rfl).2 (by decide)).2.1,
   ((handleRfidScan_one_request pageA1 "A1" 10 okCreated State.init
      (by decide) (by decide) (by decide) rfl).1 [] [] { ticketId := "7" } rfl
      (by decide)).2.1⟩

/-- C3: while `isProcessing` is set, a call of `handleRfidScan`,
`createTicket` or `closeTicket` with any arguments sends no request, suspends
nothing, and leaves the flag set, also once it has completed; and along any
run of the event loop from page load at most one create-or-close request is
outstanding, exactly when the flag is set. -/
theorem busy_calls_dropped (doc : Document) :
    (∀ (c : Call) (s : State) (result : FetchResult), s.isProcessing = true →
      (c.begin doc s).2 = none ∧
      requests (c.begin doc s).1.log = requests s.log ∧
      (c.begin doc s).1.isProcessing = true ∧
      requests (complete (c.begin doc s) result).log = requests s.log ∧
      (complete (c.begin doc s) result).isProcessing = true) ∧
    (∀ steps : List Step,
      (Session.init.run doc steps).outstanding.length ≤ 1 ∧
      ((Session.init.run doc steps).outstanding.length = 1 ↔
        (Session.init.run doc steps).state.isProcessing = true)) := by
  constructor
  · intro c s result hbusy
    obtain ⟨h1, h2, h3⟩ := begin_busy doc c s hbusy
    refine ⟨h1, h2, h3, ?_, ?_⟩
    · rw [requests_complete]; exact h2
    · simp [complete, h1, h3]
  · intro steps
    have h := Session.run_guarded doc steps
    unfold Session.Guarded at h
    cases hp : (Session.init.run doc steps).state.isProcessing <;> simp [hp] at h <;> simp [h]

/-- C3 at a concrete state: with an operation in flight, a scan of card A1,
whose ticket 7 is open, is dropped. -/
theorem busy_calls_dropped_witness :
    ((Call.handleRfidScan (some "A1") (JSNum.fin 10)).begin pageA1
        { isProcessing := true, log := [] }).2 = none ∧
    requests ((Call.handleRfidScan (some "A1") (JSNum.fin 10)).begin pageA1
        { isProcessing := true, log := [] }).1.log =
      requests ({ isProcessing := true, log := [] } : State).log ∧
    ((Call.handleRfidScan (some "A1") (JSNum.fin 10)).begin pageA1
        { isProcessing := true, log := [] }).1.isProcessing = true ∧
    requests (complete ((Call.handleRfidScan (some "A1") (JSNum.fin 10)).begin pageA1
        { isProcessing := true, log := [] }) okCreated).log =
      requests ({ isProcessing := true, log := [] } : State).log ∧
    (complete ((Call.handleRfidScan (some "A1") (JSNum.fin 10)).begin pageA1
        { isProcessing := true, log := [] }) okCreated).isProcessing = true :=
  (busy_calls_dropped pageA1).1 (Call.handleRfidScan (some "A1") (JSNum.fin 10))
    { isProcessing := true, log := [] } okCreated rfl

/-- C4: a `createTicket` or `closeTicket` call started with the flag clear
takes the flag, and when it completes the flag is clear again, for every
outcome of its exchange (success response, non-success response, rejected
request, exception while the success response is handled) and whatever calls
were made while it was in flight. -/
theorem flag_released (doc : Document) (rfidCard : Option String) (ticketId : String)
    (weight : JSNum) (result : FetchResult) (calls : List Call) (s : State)
    (hidle : s.isProcessing = false) :
    ((createTicket_begin rfidCard weight s).2 = some InFlight.createTicket ∧
      (createTicket_begin rfidCard weight s).1.isProcessing = true ∧
      (createTicket rfidCard weight result s).isProcessing = false ∧
      (Session.run doc
        { state := (createTicket_begin rfidCard weight s).1,
          outstanding := [InFlight.createTicket] }
        (calls.map Step.call ++ [Step.settle 0 result])).state.isProcessing = false) ∧
    ((closeTicket_begin ticketId weight s).2 = some (InFlight.closeTicket ticketId) ∧
      (closeTicket_begin ticketId weight s).1.isProcessing = true ∧
      (closeTicket ticketId weight result s).isProcessing = false ∧
      (Session.run doc
        { state := (closeTicket_begin ticketId weight s).1,
          outstanding := [InFlight.closeTicket ticketId] }
        (calls.map Step.call ++ [Step.settle 0 result])).state.isProcessing = false) := by
  have hc : (createTicket_begin rfidCard weight s).1.isProcessing = true := by
    simp [createTicket_begin, hidle, updateCardActionMessage, emit]
  have hd : (closeTicket_begin ticketId weight s).1.isProcessing = true := by
    simp [closeTicket_begin, hidle, updateCardActionMessage, emit]
  refine ⟨⟨?_, hc, ?_, ?_⟩, ⟨?_, hd, ?_, ?_⟩⟩
  · simp [createTicket_begin, hidle]
  · simp [createTicket, complete, createTicket_begin, hidle, isProcessing_resume]
  · exact (Session.settle_after_calls doc calls _ _ result hc).1
  · simp [closeTicket_begin, hidle]
  · simp [closeTicket, complete, closeTicket_begin, hidle, isProcessing_resume]
  · exact (Session.settle_after_calls doc calls _ _ result hd).1

/-- C4 at a success response whose body cannot be read, with a scan arriving
while the operation is in flight. -/
theorem flag_released_witness :
    ((createTicket_begin (some "A1") (JSNum.fin 10) State.init).2 =
        some InFlight.createTicket ∧
      (createTicket_begin (some "A1") (JSNum.fin 10) State.init).1.isProcessing = true ∧
      (createTicket (some "A1") (JSNum.fin 10) okUnread State.init).isProcessing = false ∧
      (Session.run pageA1
        { state := (createTicket_begin (some "A1") (JSNum.fin 10) State.init).1,
          outstanding := [InFlight.createTicket] }
        ([Call.handleRfidScan (some "A1") (JSNum.fin 10)].map Step.call ++
          [Step.settle 0 okUnread])).state.isProcessing = false) ∧
    ((closeTicket_begin "7" (JSNum.fin 10) State.init).2 = some (InFlight.closeTicket "7") ∧
      (closeTicket_begin "7" (JSNum.fin 10) State.init).1.isProcessing = true ∧
      (closeTicket "7" (JSNum.fin 10) okUnread State.init).isProcessing = false ∧
      (Session.run pageA1
        { state := (closeTicket_begin "7" (JSNum.fin 10) State.init).1,
          outstanding := [InFlight.closeTicket "7"] }
        ([Call.handleRfidScan (some "A1") (JSNum.fin 10)].map Step.call ++
          [Step.settle 0 okUnread])).state.isProcessing = false) :=
  flag_released pageA1 (some "A1") "7" (JSNum.fin 10) okUnread
    [Call.handleRfidScan (some "A1") (JSNum.fin 10)] State.init rfl

/-- C2 (the code at the failing inputs): `processCardScan` never reaches
`TicketManager.handleRfidScan`: for every card id and every state it makes no
call to it and leaves the ticket manager untouched, because the scale module
has no `getCurrentWeight`.  With the scale at 42.5, a manual scan of A1 ends
in the thrown `TypeError` and a poll reporting A1 ends in the error display;
neither forwards the card. -/
theorem processCardScan_never_forwards :
    (∀ (doc : Document) (cardId : Option String) (w : RFIDReader.World),
      RFIDReader.forwarded (RFIDReader.processCardScan doc cardId w).1.rfid.log =
          RFIDReader.forwarded w.rfid.log ∧
        (RFIDReader.processCardScan doc cardId w).1.tickets = w.tickets ∧
        (RFIDReader.processCardScan doc cardId w).1.suspended = w.suspended) ∧
    RFIDReader.simulateCardScan emptyPage (some "A1") worldAt42 =
      ({ worldAt42 with
          rfid := { RFIDReader.State.init with
            simulatedCardId := some "A1"
            log := [RFIDReader.Effect.processCardScan (some "A1")] } },
        some ⟨"WeightScale.getCurrentWeight is not a function"⟩) ∧
    RFIDReader.pollForCard emptyPage (RFIDReader.PollResult.data (some "A1")) worldAt42 =
      { worldAt42 with
          rfid := { RFIDReader.State.init with
            lastCardId := some "A1"
            log := [RFIDReader.Effect.fetch "/api/rfid/current",
              RFIDReader.Effect.processCardScan (some "A1"),
              RFIDReader.Effect.consoleError "WeightScale.getCurrentWeight is not a function",
              RFIDReader.Effect.updateCardDisplay none
                (some "WeightScale.getCurrentWeight is not a function")] } } := by
  refine ⟨fun doc cardId w => ?_, by decide, by decide⟩
  cases h : truthy cardId
  · rw [RFIDReader.processCardScan_falsy doc cardId w h]
    simp [RFIDReader.World.emit, RFIDReader.forwarded_append, RFIDReader.forwarded]
  · rw [RFIDReader.processCardScan_truthy doc cardId w h]
    simp [RFIDReader.World.emit, RFIDReader.forwarded_append, RFIDReader.forwarded]

/-- C5 (as stated, refuted): the weight `+Infinity` is not finite, yet with
card A1, no open ticket and the flag clear `handleRfidScan` sends the create
request (with `gross_weight` written as `null`) and reports no error. -/
theorem nonfinite_weight_counterexample :
    JSNum.posInf.isFinite = false ∧
    requests (handleRfidScan_begin emptyPage (some "A1") JSNum.posInf State.init).1.log =
      [{ method := "POST", url := "/api/tickets", headers := jsonHeaders,
         body := [("rfid_card", JsonValue.string "A1"), ("gross_weight", JsonValue.null)] }] ∧
    messages (handleRfidScan_begin emptyPage (some "A1") JSNum.posInf State.init).1.log =
      [("Processing card...", true), ("Creating new ticket...", true)] := by
  decide

/-- C5 (amended): for every card id and every weight that is `NaN` or at most
zero (minus infinity included), `handleRfidScan` sends no request, suspends
nothing, leaves the flag as it was, and reports a validation error through
the card action message: "Invalid card ID" when the card id is empty or
null, otherwise "Invalid weight reading. Please check the scale.". -/
theorem invalid_weight_rejected (doc : Document) (cardId : Option String) (weight : JSNum)
    (result : FetchResult) (s : State)
    (hweight : weight.isNaN = true ∨ weight.leZero = true) :
    (handleRfidScan_begin doc cardId weight s).2 = none ∧
    handleRfidScan doc cardId weight result s =
      { s with log := s.log ++
          [Effect.cardActionMessage "Processing card..." true,
           Effect.consoleError
             (if truthy cardId then "Invalid weight reading. Please check the scale."
              else "Invalid card ID"),
           Effect.cardActionMessage
             (if truthy cardId then "Invalid weight reading. Please check the scale."
              else "Invalid card ID") false] } ∧
    requests (handleRfidScan doc cardId weight result s).log = requests s.log := by
  have hw : (weight.isNaN || weight.leZero) = true := by
    rcases hweight with h | h <;> simp [h]
  cases hc : truthy cardId <;>
    simp [handleRfidScan, complete, handleRfidScan_begin, hc, hw, handleRfidScan_catch,
      updateCardActionMessage, emit, JSError.messageOr, requests_append, requests]

/-- C5 (amended) at the weights 0, -3, `NaN` and minus infinity for card A1. -/
theorem invalid_weight_rejected_witness :
    requests (handleRfidScan pageA1 (some "A1") (JSNum.fin 0) okCreated State.init).log =
      requests State.init.log ∧
    requests (handleRfidScan pageA1 (some "A1") (JSNum.fin (-3)) okCreated State.init).log =
      requests State.init.log ∧
    requests (handleRfidScan pageA1 (some "A1") JSNum.nan okCreated State.init).log =
      requests State.init.log ∧
    requests (handleRfidScan pageA1 (some "A1") JSNum.negInf okCreated State.init).log =
      requests State.init.log :=
  ⟨(invalid_weight_rejected pageA1 (some "A1") (JSNum.fin 0) okCreated State.init
      (Or.inr (by decide))).2.2,
   (invalid_weight_rejected pageA1 (some "A1") (JSNum.fin (-3)) okCreated State.init
      (Or.inr (by decide))).2.2,
   (invalid_weight_rejected pageA1 (some "A1") JSNum.nan okCreated State.init
      (Or.inl rfl)).2.2,
   (invalid_weight_rejected pageA1 (some "A1") JSNum.negInf okCreated State.init
      (Or.inr rfl)).2.2⟩

/-- C6: for an empty or null card id and any weight, in any state,
`handleRfidScan` sends no request, suspends nothing, leaves `isProcessing` as
it was, and the error it reports is "Invalid card ID". -/
theorem invalid_card_rejected (doc : Document) (cardId : Option String) (weight : JSNum)
    (result : FetchResult) (s : State) (hcard : cardId = none ∨ cardId = some "") :
    (handleRfidScan_begin doc cardId weight s).2 = none ∧
    handleRfidScan doc cardId weight result s =
      { s with log := s.log ++
          [Effect.cardActionMessage "Processing card..." true,
           Effect.consoleError "Invalid card ID",
           Effect.cardActionMessage "Invalid card ID" false] } ∧
    requests (handleRfidScan doc cardId weight result s).log = requests s.log ∧
    (handleRfidScan doc cardId weight result s).isProcessing = s.isProcessing := by
  have hc : truthy cardId = false := by
    rcases hcard with h | h <;> simp [h, truthy]
  simp [handleRfidScan, complete, handleRfidScan_begin, hc, handleRfidScan_catch,
    updateCardActionMessage, emit, JSError.messageOr, requests_append, requests]

/-- C6 at the null card with a valid weight while an operation is in flight,
and at the empty card with an invalid weight. -/
theorem invalid_card_rejected_witness :
    handleRfidScan pageA1 none (JSNum.fin 10) okCreated { isProcessing := true, log := [] } =
      { isProcessing := true
        log := [Effect.cardActionMessage "Processing card..." true,
          Effect.consoleError "Invalid card ID",
          Effect.cardActionMessage "Invalid card ID" false] } ∧
    handleRfidScan pageA1 (some "") JSNum.nan okCreated State.init =
      { isProcessing := false
        log := [Effect.cardActionMessage "Processing card..." true,
          Effect.consoleError "Invalid card ID",
          Effect.cardActionMessage "Invalid card ID" false] } :=
  ⟨(invalid_card_rejected pageA1 none (JSNum.fin 10) okCreated
      { isProcessing := true, log := [] } (Or.inl rfl)).2.1,
   (invalid_card_rejected pageA1 (some "") JSNum.nan okCreated State.init (Or.inr rfl)).2.1⟩

/-- C7: when `createTicket` or `closeTicket`, started with the flag clear,
gets a non-success response whose content type indicates JSON and whose
parsed body carries a non-empty string `e` as `error`, the failure message
written to the card action message is `e` exactly, and the flag is clear
afterwards. -/
theorem server_error_reported (rfidCard : Option String) (ticketId : String)
    (weight : JSNum) (response : Response) (fields : List (String × JSField)) (e : String)
    (s : State) (hidle : s.isProcessing = false) (hfail : response.ok = false)
    (hjson : indicatesJson response.contentType = true)
    (hbody : response.json = Except.ok (JSONBody.object fields))
    (herror : fields.lookup "error" = some (JSField.str e)) (he : e ≠ "") :
    createTicket rfidCard weight (FetchResult.resolved response) s =
      { isProcessing := false
        log := s.log ++
          [Effect.cardActionMessage "Creating new ticket..." true,
           Effect.fetch (createRequest rfidCard weight),
           Effect.consoleError e,
           Effect.cardActionMessage e false] } ∧
    closeTicket ticketId weight (FetchResult.resolved response) s =
      { isProcessing := false
        log := s.log ++
          [Effect.cardActionMessage ("Closing ticket #" ++ ticketId ++ "...") true,
           Effect.fetch (closeRequest ticketId weight),
           Effect.consoleError e,
           Effect.cardActionMessage e false] } := by
  constructor
  · simp [createTicket, complete, createTicket_begin, hidle, InFlight.resume,
      createTicket_resume, createTicket_try, hfail, failureError, hjson, hbody, JSONBody.get,
      herror, JSField.orElse, he, catchFinally, updateCardActionMessage, emit,
      JSError.messageOr]
  · simp [closeTicket, complete, closeTicket_begin, hidle, InFlight.resume,
      closeTicket_resume, closeTicket_try, hfail, failureError, hjson, hbody, JSONBody.get,
      herror, JSField.orElse, he, catchFinally, updateCardActionMessage, emit,
      JSError.messageOr]

/-- C7 at the scenario: HTTP 500 with the body carrying the error "db down"
reports "db down" and clears the flag. -/
theorem server_error_reported_witness :
    createTicket (some "A1") (JSNum.fin (mkRat 85 2)) (FetchResult.resolved dbDown)
        State.init =
      { isProcessing := false
        log := State.init.log ++
          [Effect.cardActionMessage "Creating new ticket..." true,
           Effect.fetch (createRequest (some "A1") (JSNum.fin (mkRat 85 2))),
           Effect.consoleError "db down",
           Effect.cardActionMessage "db down" false] } ∧
    closeTicket "7" (JSNum.fin (mkRat 85 2)) (FetchResult.resolved dbDown) State.init =
      { isProcessing := false
        log := State.init.log ++
          [Effect.cardActionMessage ("Closing ticket #" ++ "7" ++ "...") true,
           Effect.fetch (closeRequest "7" (JSNum.fin (mkRat 85 2))),
           Effect.consoleError "db down",
           Effect.cardActionMessage "db down" false] } :=
  server_error_reported (some "A1") "7" (JSNum.fin (mkRat 85 2)) dbDown
    [("error", JSField.str "db down")] "db down" State.init rfl (by decide) (by decide) rfl
    (by decide) (by decide)

/-- C8 (as stated, refuted): HTTP 500 with a JSON body that has no `error`
field is a non-success response without error payload, yet the message
reported is "Error creating ticket" (for a close, "Error closing ticket"),
not "Server error: 500". -/
theorem generic_message_counterexample :
    emptyObject500.ok = false ∧
    emptyObject500.json = Except.ok (JSONBody.object []) ∧
    messages (createTicket (some "A1") (JSNum.fin 10) (FetchResult.resolved emptyObject500)
        State.init).log =
      [("Creating new ticket...", true), ("Error creating ticket", false)] ∧
    messages (closeTicket "7" (JSNum.fin 10) (FetchResult.resolved emptyObject500)
        State.init).log =
      [("Closing ticket #7...", true), ("Error closing ticket", false)] ∧
    ("Error creating ticket", false) ≠ ("Server error: " ++ toString emptyObject500.status, false)
      ∧
    ("Error closing ticket", false) ≠ ("Server error: " ++ toString emptyObject500.status, false)
    := by
  refine ⟨by decide, rfl, by decide, by decide, by decide, by decide⟩

/-- C8 (amended): when `createTicket` or `closeTicket`, started with the flag
clear, gets a non-success response of status `s`: if the content type does
not indicate JSON, the message reported is "Server error: s"; if it does
and the parsed body is a JSON value other than `null` that has no `error`
field, the message reported is the fixed "Error creating ticket",
respectively "Error closing ticket"; and if it does and the parsed body is
`null`, the message reported is that of the `TypeError` which reading `error`
off `null` throws. -/
theorem generic_failure_message (rfidCard : Option String) (ticketId : String)
    (weight : JSNum) (response : Response) (s : State)
    (hidle : s.isProcessing = false) (hfail : response.ok = false) :
    (indicatesJson response.contentType = false →
      createTicket rfidCard weight (FetchResult.resolved response) s =
        { isProcessing := false
          log := s.log ++
            [Effect.cardActionMessage "Creating new ticket..." true,
             Effect.fetch (createRequest rfidCard weight),
             Effect.consoleError ("Server error: " ++ toString response.status),
             Effect.cardActionMessage ("Server error: " ++ toString response.status) false] } ∧
      closeTicket ticketId weight (FetchResult.resolved response) s =
        { isProcessing := false
          log := s.log ++
            [Effect.cardActionMessage ("Closing ticket #" ++ ticketId ++ "...") true,
             Effect.fetch (closeRequest ticketId weight),
             Effect.consoleError ("Server error: " ++ toString response.status),
             Effect.cardActionMessage ("Server error: " ++ toString response.status) false] }) ∧
    (indicatesJson response.contentType = true →
      ∀ body : JSONBody, response.json = Except.ok body →
        (body = JSONBody.nonObject ∨
          ∃ fields, body = JSONBody.object fields ∧ fields.lookup "error" = none) →
      createTicket rfidCard weight (FetchResult.resolved response) s =
        { isProcessing := false
          log := s.log ++
            [Effect.cardActionMessage "Creating new ticket..." true,
             Effect.fetch (createRequest rfidCard weight),
             Effect.consoleError "Error creating ticket",
             Effect.cardActionMessage "Error creating ticket" false] } ∧
      closeTicket ticketId weight (FetchResult.resolved response) s =
        { isProcessing := false
          log := s.log ++
            [Effect.cardActionMessage ("Closing ticket #" ++ ticketId ++ "...") true,
             Effect.fetch (closeRequest ticketId weight),
             Effect.consoleError "Error closing ticket",
             Effect.cardActionMessage "Error closing ticket" false] }) ∧
    (indicatesJson response.contentType = true →
      response.json = Except.ok JSONBody.null →
      createTicket rfidCard weight (FetchResult.resolved response) s =
        { isProcessing := false
          log := s.log ++
            [Effect.cardActionMessage "Creating new ticket..." true,
             Effect.fetch (createRequest rfidCard weight),
             Effect.consoleError (nullReadMessage "error"),
             Effect.cardActionMessage (nullReadMessage "error") false] } ∧
      closeTicket ticketId weight (FetchResult.resolved response) s =
        { isProcessing := false
          log := s.log ++
            [Effect.cardActionMessage ("Closing ticket #" ++ ticketId ++ "...") true,
             Effect.fetch (closeRequest ticketId weight),
             Effect.consoleError (nullReadMessage "error"),
             Effect.cardActionMessage (nullReadMessage "error") false] }) := by
  have hne : ∀ n : Nat, ¬ ("Server error: " ++ toString n = "") :=
    fun n => append_ne_empty "Server error: " (toString n) (by decide)
  have hnull := nullReadMessage_ne "error"
  refine ⟨fun hjson => ⟨?_, ?_⟩, fun hjson body hbody habsent => ?_,
    fun hjson hbody => ⟨?_, ?_⟩⟩
  · simp [createTicket, complete, createTicket_begin, hidle, InFlight.resume,
      createTicket_resume, createTicket_try, hfail, failureError, hjson, catchFinally,
      updateCardActionMessage, emit, JSError.messageOr, hne]
  · simp [closeTicket, complete, closeTicket_begin, hidle, InFlight.resume,
      closeTicket_resume, closeTicket_try, hfail, failureError, hjson, catchFinally,
      updateCardActionMessage, emit, JSError.messageOr, hne]
  · have herror := get_absent body "error" habsent
    constructor
    · simp [createTicket, complete, createTicket_begin, hidle, InFlight.resume,
        createTicket_resume, createTicket_try, hfail, failureError, hjson, hbody, herror,
        JSField.orElse, catchFinally, updateCardActionMessage, emit, JSError.messageOr]
    · simp [closeTicket, complete, closeTicket_begin, hidle, InFlight.resume,
        closeTicket_resume, closeTicket_try, hfail, failureError, hjson, hbody, herror,
        JSField.orElse, catchFinally, updateCardActionMessage, emit, JSError.messageOr]
  · simp [createTicket, complete, createTicket_begin, hidle, InFlight.resume,
      createTicket_resume, createTicket_try, hfail, failureError, hjson, hbody,
      JSONBody.get, catchFinally, updateCardActionMessage, emit, JSError.messageOr, hnull]
  · simp [closeTicket, complete, closeTicket_begin, hidle, InFlight.resume,
      closeTicket_resume, closeTicket_try, hfail, failureError, hjson, hbody,
      JSONBody.get, catchFinally, updateCardActionMessage, emit, JSError.messageOr, hnull]

/-- C8 (amended) at HTTP 502 with an HTML body, which reports
"Server error: 502", at HTTP 500 with an empty JSON object, which reports
the fixed message of the operation, and at HTTP 500 with the JSON body
`null`, which reports the message of the `TypeError`. -/
theorem generic_failure_message_witness :
    (createTicket (some "A1") (JSNum.fin 10) (FetchResult.resolved htmlBadGateway)
        State.init =
      { isProcessing := false
        log := State.init.log ++
          [Effect.cardActionMessage "Creating new ticket..." true,
           Effect.fetch (createRequest (some "A1") (JSNum.fin 10)),
           Effect.consoleError ("Server error: " ++ toString htmlBadGateway.status),
           Effect.cardActionMessage ("Server error: " ++ toString htmlBadGateway.status)
             false] }) ∧
    (closeTicket "7" (JSNum.fin 10) (FetchResult.resolved emptyObject500) State.init =
      { isProcessing := false
        log := State.init.log ++
          [Effect.cardActionMessage ("Closing ticket #" ++ "7" ++ "...") true,
           Effect.fetch (closeRequest "7" (JSNum.fin 10)),
           Effect.consoleError "Error closing ticket",
           Effect.cardActionMessage "Error closing ticket" false] }) ∧
    (createTicket (some "A1") (JSNum.fin 10) (FetchResult.resolved nullBody500) State.init =
      { isProcessing := false
        log := State.init.log ++
          [Effect.cardActionMessage "Creating new ticket..." true,
           Effect.fetch (createRequest (some "A1") (JSNum.fin 10)),
           Effect.consoleError (nullReadMessage "error"),
           Effect.cardActionMessage (nullReadMessage "error") false] }) :=
  ⟨((generic_failure_message (some "A1") "7" (JSNum.fin 10) htmlBadGateway State.init rfl
      (by decide)).1 (by decide)).1,
   ((generic_failure_message (some "A1") "7" (JSNum.fin 10) emptyObject500 State.init rfl
      (by decide)).2.1 (by decide) (JSONBody.object []) rfl
      (Or.inr ⟨[], rfl, rfl⟩)).2,
   ((generic_failure_message (some "A1") "7" (JSNum.fin 10) nullBody500 State.init rfl
      (by decide)).2.2 (by decide) rfl).1⟩

/-- C9 (as stated, refuted): HTTP 200 with a body that cannot be read as JSON
is a success response, yet neither `closeTicket` nor `createTicket` schedules
a refresh on it; each reports the parse error instead. -/
theorem refresh_counterexample :
    okEmptyBody.ok = true ∧
    reloads (closeTicket "7" (JSNum.fin 10) okUnread
        State.init).log = 0 ∧
    reloads (createTicket (some "A1") (JSNum.fin 10) okUnread
        State.init).log = 0 ∧
    messages (closeTicket "7" (JSNum.fin 10) okUnread
        State.init).log =
      [("Closing ticket #7...", true), ("Unexpected end of JSON input", false)] := by
  decide

/-- C9 (amended): a `createTicket` or `closeTicket` call schedules exactly one
refresh when it is not dropped by the guard and its exchange ends in a
success response whose body is read as JSON (for `createTicket`, a body other
than `null`), and none otherwise: none on a non-success response, on a
rejected request, on a success response whose body cannot be read, or when
the call is dropped. -/
theorem refresh_iff_completed (rfidCard : Option String) (ticketId : String)
    (weight : JSNum) (result : FetchResult) (s : State) :
    reloads (createTicket rfidCard weight result s).log =
      reloads s.log + (if !s.isProcessing && result.createCompletes then 1 else 0) ∧
    reloads (closeTicket ticketId weight result s).log =
      reloads s.log + (if !s.isProcessing && result.closeCompletes then 1 else 0) ∧
    (∀ e : JSError, (FetchResult.rejected e).createCompletes = false ∧
      (FetchResult.rejected e).closeCompletes = false) ∧
    (∀ r : Response, r.ok = false → (FetchResult.resolved r).createCompletes = false ∧
      (FetchResult.resolved r).closeCompletes = false) ∧
    (∀ (r : Response) (fields : List (String × JSField)), r.ok = true →
      r.json = Except.ok (JSONBody.object fields) →
      (FetchResult.resolved r).createCompletes = true ∧
        (FetchResult.resolved r).closeCompletes = true) := by
  refine ⟨?_, ?_, fun e => ⟨rfl, rfl⟩, fun r hr => ?_, fun r fields hr hj => ?_⟩
  · cases hp : s.isProcessing
    · simp [createTicket, complete, createTicket_begin, hp, InFlight.resume,
        reloads_createTicket_resume, updateCardActionMessage, emit, reloads_append, reloads]
    · simp [createTicket, complete, createTicket_begin, hp]
  · cases hp : s.isProcessing
    · simp [closeTicket, complete, closeTicket_begin, hp, InFlight.resume,
        reloads_closeTicket_resume, updateCardActionMessage, emit, reloads_append, reloads]
    · simp [closeTicket, complete, closeTicket_begin, hp]
  · simp [FetchResult.createCompletes, FetchResult.closeCompletes, FetchResult.successBody, hr]
  · simp [FetchResult.createCompletes, FetchResult.closeCompletes, FetchResult.successBody, hr,
      hj]

/-- C9 (amended) at a failed response and at a success response with a JSON
object as body. -/
theorem refresh_iff_completed_witness :
    ((FetchResult.resolved dbDown).createCompletes = false ∧
      (FetchResult.resolved dbDown).closeCompletes = false) ∧
    (okCreated.createCompletes = true ∧
      okCreated.closeCompletes = true) :=
  ⟨(refresh_iff_completed (some "A1") "7" (JSNum.fin 10) (FetchResult.resolved dbDown)
      State.init).2.2.2.1 dbDown (by decide),
   (refresh_iff_completed (some "A1") "7" (JSNum.fin 10) (FetchResult.resolved dbDown)
      State.init).2.2.2.2 created12 [("id", JSField.other true "12")] (by decide) rfl⟩

/-- C10: after any finite sequence of successful poll responses from the
page just loaded, the next successful response produces a card event (a call
to `processCardScan` with its `card_id`) exactly when that `card_id` is
non-empty and differs from the card id of the last card event; so the
responses A1, A1, B2 produce the two events A1 and B2, and repeating the
last card id produces none. -/
theorem poll_edge_triggered (doc : Document) (responses : List (Option String))
    (r : Option String) :
    RFIDReader.cardEvents
        (RFIDReader.pollForCard doc (RFIDReader.PollResult.data r)
          (RFIDReader.pollAll doc RFIDReader.World.init responses)).rfid.log =
      RFIDReader.cardEvents (RFIDReader.pollAll doc RFIDReader.World.init responses).rfid.log ++
        (if truthy r = true ∧
            (RFIDReader.cardEvents
              (RFIDReader.pollAll doc RFIDReader.World.init responses).rfid.log).getLast? ≠
              some r
          then [r] else []) ∧
    RFIDReader.cardEvents
        (RFIDReader.pollAll doc RFIDReader.World.init [some "A1", some "A1", some "B2"]).rfid.log =
      [some "A1", some "B2"] ∧
    RFIDReader.cardEvents
        (RFIDReader.pollAll doc RFIDReader.World.init
          [some "A1", some "A1", some "B2", some "B2", none, some "", some "B2"]).rfid.log =
      [some "A1", some "B2"] := by
  refine ⟨?_, ?_, ?_⟩
  · have h := RFIDReader.EdgeTriggered.pollAll doc responses RFIDReader.World.init
      RFIDReader.EdgeTriggered.init
    rw [RFIDReader.cardEvents_pollForCard]
    congr 1
    by_cases ht : truthy r = true
    · have := h r ht
      by_cases hne : (r != (RFIDReader.pollAll doc RFIDReader.World.init responses).rfid.lastCardId)
          = true
      · simp [ht, hne, this.mp hne]
      · have hn : ¬ ((RFIDReader.cardEvents
            (RFIDReader.pollAll doc RFIDReader.World.init responses).rfid.log).getLast? ≠
              some r) := fun hx => hne (this.mpr hx)
        simp only [ht, hne, Bool.true_and, true_and, hn]
        simp
    · simp [ht]
  · rw [RFIDReader.pollAll_document doc emptyPage _ RFIDReader.World.init
      RFIDReader.World.init rfl rfl]
    decide
  · rw [RFIDReader.pollAll_document doc emptyPage _ RFIDReader.World.init
      RFIDReader.World.init rfl rfl]
    decide

/-- C12: from a state with no failure counted, after any sequence of reads,
the next read reports the disconnected state only when it is not successful
and is at least the third of the current run of failures; when every read is
a successful read, a network error or a non-success status, it reports it
exactly then; and a successful read reports the connected state, does not
report the disconnected one, and leaves the failure counter at 0. -/
theorem disconnected_after_three (page : WeightScale.Elements) (s₀ : WeightScale.State)
    (results : List WeightScale.ReadResult) (r : WeightScale.ReadResult)
    (hstart : s₀.connectionAttempts = 0) :
    (WeightScale.Effect.updateConnectionStatus false ∈
        WeightScale.reported (WeightScale.readAll page s₀ results)
          (WeightScale.readWeight page r (WeightScale.readAll page s₀ results)) →
      r.isSuccess = false ∧ 3 ≤ WeightScale.trailingFailures (results ++ [r])) ∧
    ((∀ x ∈ results ++ [r], x.isSuccess = true ∨ x.isFailedRead = true) →
      (WeightScale.Effect.updateConnectionStatus false ∈
          WeightScale.reported (WeightScale.readAll page s₀ results)
            (WeightScale.readWeight page r (WeightScale.readAll page s₀ results)) ↔
        3 ≤ WeightScale.trailingFailures (results ++ [r]))) ∧
    (r.isSuccess = true →
      WeightScale.Effect.updateConnectionStatus true ∈
          WeightScale.reported (WeightScale.readAll page s₀ results)
            (WeightScale.readWeight page r (WeightScale.readAll page s₀ results)) ∧
        WeightScale.Effect.updateConnectionStatus false ∉
          WeightScale.reported (WeightScale.readAll page s₀ results)
            (WeightScale.readWeight page r (WeightScale.readAll page s₀ results)) ∧
        (WeightScale.readWeight page r
          (WeightScale.readAll page s₀ results)).connectionAttempts = 0) := by
  obtain ⟨hcount, hdis, hcon⟩ :=
    WeightScale.readWeight_spec page r (WeightScale.readAll page s₀ results)
  have hle := WeightScale.connectionAttempts_le page s₀ (results ++ [r]) hstart
  rw [WeightScale.readAll_concat] at hle
  refine ⟨fun h => ?_, fun hkind => ?_, fun hs => ?_⟩
  · obtain ⟨h1, h2⟩ := hdis.mp h
    exact ⟨h1, le_trans h2 hle⟩
  · have heq := WeightScale.connectionAttempts_eq page s₀ (results ++ [r]) hstart hkind
    rw [WeightScale.readAll_concat] at heq
    rw [hdis, heq]
    constructor
    · exact fun h => h.2
    · intro h
      refine ⟨?_, h⟩
      rw [WeightScale.trailingFailures_concat] at h
      cases hs : r.isSuccess
      · rfl
      · simp [hs] at h
  · refine ⟨hcon hs, ?_, ?_⟩
    · intro h
      have := (hdis.mp h).1
      rw [hs] at this
      exact Bool.noConfusion this
    · rw [hcount]
      simp [hs]

/-- C12 on a started scale: after a good read and two failures the third
failure reports the disconnected state, and the good read that follows
reports the connected one and leaves the counter at 0. -/
theorem disconnected_after_three_witness :
    WeightScale.Effect.updateConnectionStatus false ∈
        WeightScale.reported
          (WeightScale.readAll scalePage scaleStarted [readOk 5, readDown, read503])
          (WeightScale.readWeight scalePage readDown
            (WeightScale.readAll scalePage scaleStarted [readOk 5, readDown, read503])) ∧
    (WeightScale.Effect.updateConnectionStatus true ∈
        WeightScale.reported
          (WeightScale.readAll scalePage scaleStarted [readOk 5, readDown, read503, readDown])
          (WeightScale.readWeight scalePage (readOk 7)
            (WeightScale.readAll scalePage scaleStarted [readOk 5, readDown, read503, readDown]))
      ∧
      WeightScale.Effect.updateConnectionStatus false ∉
        WeightScale.reported
          (WeightScale.readAll scalePage scaleStarted [readOk 5, readDown, read503, readDown])
          (WeightScale.readWeight scalePage (readOk 7)
            (WeightScale.readAll scalePage scaleStarted [readOk 5, readDown, read503, readDown]))
      ∧
      (WeightScale.readWeight scalePage (readOk 7)
        (WeightScale.readAll scalePage scaleStarted
          [readOk 5, readDown, read503, readDown])).connectionAttempts = 0) :=
  ⟨((disconnected_after_three scalePage scaleStarted [readOk 5, readDown, read503] readDown
      rfl).2.1 (by decide)).mpr (by decide),
   (disconnected_after_three scalePage scaleStarted [readOk 5, readDown, read503, readDown]
      (readOk 7) rfl).2.2 rfl⟩

/-- C13 (the code at the failing input): on a started scale whose page has
the weight display, a successful read of 42.5 followed by a successful read
of 0 leaves `getLastWeight()` at 42.5, because `readWeight` passes on only a
truthy `data.weight`; and on a page without the weight display a successful
read of 42.5 is not stored at all, because `updateWeightDisplay` returns
before the assignment. -/
theorem zero_weight_not_stored :
    (readOk 0).isSuccess = true ∧
    WeightScale.getLastWeight
        (WeightScale.readAll scalePage scaleStarted [readOk (mkRat 85 2), readOk 0]) =
      JSNum.fin (mkRat 85 2) ∧
    WeightScale.getLastWeight
        (WeightScale.readAll { getElementById := fun _ => false } scaleStarted
          [readOk (mkRat 85 2)]) =
      JSNum.fin 0 := by
  decide

/-- C11: for a non-empty card id and any state of the reader,
`simulateCardScan` records the id as the injected card, makes exactly one
call to `processCardScan` with it, and leaves `lastCardId` as it was. -/
theorem injection_always_forwards (doc : Document) (card : String) (w : RFIDReader.World)
    (hcard : card ≠ "") :
    (RFIDReader.simulateCardScan doc (some card) w).1.rfid.simulatedCardId = some card ∧
    RFIDReader.cardEvents (RFIDReader.simulateCardScan doc (some card) w).1.rfid.log =
      RFIDReader.cardEvents w.rfid.log ++ [some card] ∧
    (RFIDReader.simulateCardScan doc (some card) w).1.rfid.lastCardId = w.rfid.lastCardId := by
  have ht : truthy (some card) = true := by simp [truthy, hcard]
  rw [RFIDReader.simulateCardScan_truthy doc (some card) w ht]
  simp [RFIDReader.World.emit, RFIDReader.cardEvents_append, RFIDReader.cardEvents]

/-- C11 on a reader that has already polled A1 and had A1 injected: a second
injection of A1 is recorded and adds one more card event. -/
theorem injection_always_forwards_witness :
    (RFIDReader.simulateCardScan emptyPage (some "A1")
        (RFIDReader.World.feedAll emptyPage RFIDReader.World.init
          [RFIDReader.CardInput.polled (RFIDReader.PollResult.data (some "A1")),
           RFIDReader.CardInput.injected (some "A1")])).1.rfid.simulatedCardId = some "A1" ∧
    RFIDReader.cardEvents
        (RFIDReader.simulateCardScan emptyPage (some "A1")
          (RFIDReader.World.feedAll emptyPage RFIDReader.World.init
            [RFIDReader.CardInput.polled (RFIDReader.PollResult.data (some "A1")),
             RFIDReader.CardInput.injected (some "A1")])).1.rfid.log =
      RFIDReader.cardEvents
          (RFIDReader.World.feedAll emptyPage RFIDReader.World.init
            [RFIDReader.CardInput.polled (RFIDReader.PollResult.data (some "A1")),
             RFIDReader.CardInput.injected (some "A1")]).rfid.log ++ [some "A1"] ∧
    (RFIDReader.simulateCardScan emptyPage (some "A1")
        (RFIDReader.World.feedAll emptyPage RFIDReader.World.init
          [RFIDReader.CardInput.polled (RFIDReader.PollResult.data (some "A1")),
           RFIDReader.CardInput.injected (some "A1")])).1.rfid.lastCardId =
      (RFIDReader.World.feedAll emptyPage RFIDReader.World.init
          [RFIDReader.CardInput.polled (RFIDReader.PollResult.data (some "A1")),
           RFIDReader.CardInput.injected (some "A1")]).rfid.lastCardId :=
  injection_always_forwards emptyPage "A1"
    (RFIDReader.World.feedAll emptyPage RFIDReader.World.init
      [RFIDReader.CardInput.polled (RFIDReader.PollResult.data (some "A1")),
       RFIDReader.CardInput.injected (some "A1")]) (by decide)

/-- C14 (as stated, refuted): after a poll that reported A1 and an injection
of B2 both variables are set, and `getLastCardId()` returns the polled A1,
not the injected B2. -/
theorem getLastCardId_counterexample :
    (RFIDReader.World.feedAll emptyPage RFIDReader.World.init
        [RFIDReader.CardInput.polled (RFIDReader.PollResult.data (some "A1")),
         RFIDReader.CardInput.injected (some "B2")]).rfid.lastCardId = some "A1" ∧
    (RFIDReader.World.feedAll emptyPage RFIDReader.World.init
        [RFIDReader.CardInput.polled (RFIDReader.PollResult.data (some "A1")),
         RFIDReader.CardInput.injected (some "B2")]).rfid.simulatedCardId = some "B2" ∧
    RFIDReader.getLastCardId
        (RFIDReader.World.feedAll emptyPage RFIDReader.World.init
          [RFIDReader.CardInput.polled (RFIDReader.PollResult.data (some "A1")),
           RFIDReader.CardInput.injected (some "B2")]).rfid = some "A1" ∧
    RFIDReader.getLastCardId
        (RFIDReader.World.feedAll emptyPage RFIDReader.World.init
          [RFIDReader.CardInput.polled (RFIDReader.PollResult.data (some "A1")),
           RFIDReader.CardInput.injected (some "B2")]).rfid ≠ some "B2" := by
  decide

/-- C14 (amended): after any polls and injections from page load,
`getLastCardId()` returns the card id of the latest poll that reported a
card, and when no poll has reported one, the latest injected card id; it
returns `null` exactly when no card was polled or injected.  The injected id
comes first only in `updateCardStatus`, which hands the display the latest
injected card id, and the polled one when nothing was injected. -/
theorem getLastCardId_polled_first (doc : Document) (inputs : List RFIDReader.CardInput) :
    RFIDReader.getLastCardId (RFIDReader.World.feedAll doc RFIDReader.World.init inputs).rfid =
      (match RFIDReader.lastPolledCard inputs with
       | some c => some c
       | none => RFIDReader.lastInjectedCard inputs) ∧
    (RFIDReader.getLastCardId
        (RFIDReader.World.feedAll doc RFIDReader.World.init inputs).rfid = none ↔
      RFIDReader.lastPolledCard inputs = none ∧ RFIDReader.lastInjectedCard inputs = none) ∧
    (RFIDReader.updateCardStatus doc
        (RFIDReader.World.feedAll doc RFIDReader.World.init inputs)).1.rfid.log =
      (RFIDReader.World.feedAll doc RFIDReader.World.init inputs).rfid.log ++
        [RFIDReader.Effect.updateCardDisplay
          (match RFIDReader.lastInjectedCard inputs with
           | some c => some c
           | none => RFIDReader.lastPolledCard inputs) none] := by
  obtain ⟨hl, hs⟩ := RFIDReader.feedAll_cards doc inputs
  have hget : RFIDReader.getLastCardId
      (RFIDReader.World.feedAll doc RFIDReader.World.init inputs).rfid =
      (match RFIDReader.lastPolledCard inputs with
       | some c => some c
       | none => RFIDReader.lastInjectedCard inputs) := by
    simp only [RFIDReader.getLastCardId, RFIDReader.orElse, hl, hs]
    cases hp : RFIDReader.lastPolledCard inputs with
    | none => simp [truthy]
    | some c => simp [RFIDReader.lastPolledCard_truthy inputs c hp]
  refine ⟨hget, ?_, ?_⟩
  · rw [hget]
    cases RFIDReader.lastPolledCard inputs <;> simp
  · simp only [RFIDReader.updateCardStatus, RFIDReader.updateCardDisplay_fst,
      RFIDReader.World.emit, RFIDReader.orElse, hl, hs]
    cases hi : RFIDReader.lastInjectedCard inputs with
    | none => simp [truthy]
    | some c => simp [RFIDReader.lastInjectedCard_truthy inputs c hi]

/-- C15 (the code at the failing input): with polling started, a tick whose
response reports the new card A1 ends in the error path of `pollForCard`
(the `TypeError` of `processCardScan` is caught and shown on the card
display) and has changed `lastCardId` from `null` to A1; the polling flag
and the timer are as before. -/
theorem poll_error_moves_lastCardId :
    (RFIDReader.startPolling 1 RFIDReader.World.init).rfid.lastCardId = none ∧
    (RFIDReader.pollForCard_resume emptyPage (RFIDReader.PollResult.data (some "A1"))
        (RFIDReader.startPolling 1 RFIDReader.World.init)).rfid =
      { lastCardId := some "A1", simulatedCardId := none, isPolling := true,
        pollInterval := some 1,
        log := [RFIDReader.Effect.fetch "/api/rfid/current",
          RFIDReader.Effect.processCardScan (some "A1"),
          RFIDReader.Effect.consoleError "WeightScale.getCurrentWeight is not a function",
          RFIDReader.Effect.updateCardDisplay none
            (some "WeightScale.getCurrentWeight is not a function")] } := by
  decide

/-- C16 (as stated, refuted): HTTP 200 with a body that cannot be read as
JSON is a success response, yet `deleteTicket` and `printReceipt` return
`false` on it; and on HTTP 502 with an HTML body the error `deleteTicket`
reports is that of the failed parse, which does not carry the status. -/
theorem one_shot_counterexample :
    okEmptyBody.ok = true ∧
    (deleteTicket "7" (FetchResult.resolved okEmptyBody)).1 = false ∧
    (printReceipt "7" (FetchResult.resolved okEmptyBody)).1 = false ∧
    htmlBadGateway.ok = false ∧
    alerts (deleteTicket "7" (FetchResult.resolved htmlBadGateway)).2 =
      [("Unexpected token < in JSON at position 0", "danger")] ∧
    alerts (printReceipt "7" (FetchResult.resolved htmlBadGateway)).2 =
      [("Sending print job...", "info"),
       ("Unexpected token < in JSON at position 0", "danger")] := by
  decide

/-- C16 (amended): on every non-success response `deleteTicket` and
`printReceipt` return `false`; when its body is a JSON object carrying a
non-empty string `e` as `error` the alert shown is `e`; when its body is a
JSON value other than `null` that has no `error` field the alert is the
status-coded "Server error: s", respectively "Error printing ticket: s";
when its body is the JSON value `null` the alert is the message of the
`TypeError` which reading `error` off `null` throws.  On a success response
whose body is read as JSON `deleteTicket` returns `true`, and so does
`printReceipt` when that body is not `null`. -/
theorem one_shot_outcomes (ticketId : String) (response : Response) :
    (response.ok = false →
      (deleteTicket ticketId (FetchResult.resolved response)).1 = false ∧
      (printReceipt ticketId (FetchResult.resolved response)).1 = false) ∧
    (response.ok = false → ∀ (fields : List (String × JSField)) (e : String),
      response.json = Except.ok (JSONBody.object fields) →
      fields.lookup "error" = some (JSField.str e) → e ≠ "" →
      alerts (deleteTicket ticketId (FetchResult.resolved response)).2 = [(e, "danger")] ∧
      alerts (printReceipt ticketId (FetchResult.resolved response)).2 =
        [("Sending print job...", "info"), (e, "danger")]) ∧
    (response.ok = false → ∀ body : JSONBody, response.json = Except.ok body →
      (body = JSONBody.nonObject ∨
        ∃ fields, body = JSONBody.object fields ∧ fields.lookup "error" = none) →
      alerts (deleteTicket ticketId (FetchResult.resolved response)).2 =
        [("Server error: " ++ toString response.status, "danger")] ∧
      alerts (printReceipt ticketId (FetchResult.resolved response)).2 =
        [("Sending print job...", "info"),
         ("Error printing ticket: " ++ toString response.status, "danger")]) ∧
    (response.ok = false → response.json = Except.ok JSONBody.null →
      alerts (deleteTicket ticketId (FetchResult.resolved response)).2 =
        [(nullReadMessage "error", "danger")] ∧
      alerts (printReceipt ticketId (FetchResult.resolved response)).2 =
        [("Sending print job...", "info"), (nullReadMessage "error", "danger")]) ∧
    (response.ok = true → ∀ body : JSONBody, response.json = Except.ok body →
      (deleteTicket ticketId (FetchResult.resolved response)).1 = true ∧
      (body ≠ JSONBody.null →
        (printReceipt ticketId (FetchResult.resolved response)).1 = true)) := by
  refine ⟨fun hfail => ?_, fun hfail fields e hbody herror he => ?_,
    fun hfail body hbody habsent => ?_, fun hfail hbody => ?_, fun hok body hbody => ?_⟩
  · constructor
    · cases hj : response.json with
      | error e => simp [deleteTicket, deleteTicket_try, hj]
      | ok data =>
          cases hg : data.get "error" <;>
            simp [deleteTicket, deleteTicket_try, hj, hfail, hg]
    · cases hj : response.json with
      | error e => simp [printReceipt, printReceipt_try, hj]
      | ok data =>
          cases hg : data.get "error" <;>
            simp [printReceipt, printReceipt_try, hj, hfail, hg]
  · constructor
    · simp [deleteTicket, deleteTicket_try, hfail, hbody, JSONBody.get, herror,
        JSField.orElse, he, JSError.messageOr, alerts]
    · simp [printReceipt, printReceipt_try, hfail, hbody, JSONBody.get, herror,
        JSField.orElse, he, JSError.messageOr, alerts]
  · have herror := get_absent body "error" habsent
    have h1 := append_ne_empty "Server error: " (toString response.status) (by decide)
    have h2 := append_ne_empty "Error printing ticket: " (toString response.status)
      (by decide)
    constructor
    · simp [deleteTicket, deleteTicket_try, hfail, hbody, herror, JSField.orElse,
        JSError.messageOr, alerts, h1]
    · simp [printReceipt, printReceipt_try, hfail, hbody, herror, JSField.orElse,
        JSError.messageOr, alerts, h2]
  · have hnull := nullReadMessage_ne "error"
    constructor
    · simp [deleteTicket, deleteTicket_try, hfail, hbody, JSONBody.get, JSError.messageOr,
        alerts, hnull]
    · simp [printReceipt, printReceipt_try, hfail, hbody, JSONBody.get, JSError.messageOr,
        alerts, hnull]
  · constructor
    · simp [deleteTicket, deleteTicket_try, hok, hbody]
    · intro hnull
      cases body with
      | null => exact absurd rfl hnull
      | object fields =>
          obtain ⟨v, hv⟩ := get_object fields "message"
          simp [printReceipt, printReceipt_try, hok, hbody, hv]
      | nonObject => simp [printReceipt, printReceipt_try, hok, hbody, JSONBody.get]

/-- C16 (amended) at HTTP 500 with the error "db down", at HTTP 500 with an
empty JSON object, at HTTP 500 with the JSON body `null`, and at a success
response with a JSON object. -/
theorem one_shot_outcomes_witness :
    ((deleteTicket "7" (FetchResult.resolved dbDown)).1 = false ∧
      (printReceipt "7" (FetchResult.resolved dbDown)).1 = false) ∧
    (alerts (deleteTicket "7" (FetchResult.resolved dbDown)).2 = [("db down", "danger")] ∧
      alerts (printReceipt "7" (FetchResult.resolved dbDown)).2 =
        [("Sending print job...", "info"), ("db down", "danger")]) ∧
    (alerts (deleteTicket "7" (FetchResult.resolved emptyObject500)).2 =
        [("Server error: " ++ toString emptyObject500.status, "danger")] ∧
      alerts (printReceipt "7" (FetchResult.resolved emptyObject500)).2 =
        [("Sending print job...", "info"),
         ("Error printing ticket: " ++ toString emptyObject500.status, "danger")]) ∧
    (alerts (deleteTicket "7" (FetchResult.resolved nullBody500)).2 =
        [(nullReadMessage "error", "danger")] ∧
      alerts (printReceipt "7" (FetchResult.resolved nullBody500)).2 =
        [("Sending print job...", "info"), (nullReadMessage "error", "danger")]) ∧
    ((deleteTicket "7" (FetchResult.resolved created12)).1 = true ∧
      (printReceipt "7" (FetchResult.resolved created12)).1 = true) :=
  ⟨(one_shot_outcomes "7" dbDown).1 (by decide),
   (one_shot_outcomes "7" dbDown).2.1 (by decide) [("error", JSField.str "db down")] "db down"
     rfl (by decide) (by decide),
   (one_shot_outcomes "7" emptyObject500).2.2.1 (by decide) (JSONBody.object []) rfl
     (Or.inr ⟨[], rfl, rfl⟩),
   (one_shot_outcomes "7" nullBody500).2.2.2.1 (by decide) rfl,
   ⟨((one_shot_outcomes "7" created12).2.2.2.2 (by decide)
       (JSONBody.object [("id", JSField.other true "12")]) rfl).1,
    ((one_shot_outcomes "7" created12).2.2.2.2 (by decide)
       (JSONBody.object [("id", JSField.other true "12")]) rfl).2 (by decide)⟩⟩

end EndustryPi
